import Mathlib

/-!
# WaterBot: the control loop of `src/main.cpp`

A shallow embedding of the irrigation controller.  The shared record
`sensorReadings` is passed explicitly; every procedure of the control context
returns the new record together with the hardware events it performs (pin
writes, delays, sensor reads, display updates), in program order.

Constants of `main.h` (which is not part of the sources) are the fields of
`Config`.
-/

namespace WaterBot

/-! ## Machine integers -/

/-- Conversion of an integer value to a 32-bit `int` (two's complement). -/
def toInt (x : Int) : Int := (x + 2 ^ 31) % 2 ^ 32 - 2 ^ 31

/-- Conversion of an integer value to a 32-bit `uint`. -/
def toUint (x : Int) : Nat := (x % 2 ^ 32).toNat

/-- Arduino integer `map`, as called on line 41, in the form it has in the
ESP32 core the program is built on: the result is `-1` when
`in_max = in_min`, and otherwise
`(x - in_min) * (out_max - out_min) / (in_max - in_min) + out_min` with the
truncating division of C.  The arguments and every intermediate value are
`long`, 32 bits wide on this target; a result that leaves that range wraps
around, as the two's-complement arithmetic of the target does. -/
def map (x in_min in_max out_min out_max : Int) : Int :=
  let run := toInt (in_max - in_min)
  if run = 0 then -1
  else
    let rise := toInt (out_max - out_min)
    let delta := toInt (x - in_min)
    toInt (toInt (Int.tdiv (toInt (delta * rise)) run) + out_min)

/-- The call `round(avgMoisture / NUM_MOISTURE_SENSORS)` on line 52: the
argument is the result of an `int` division, so it is already integral when it
is converted to `double`, and `round` returns it unchanged. -/
def round (q : Int) : Int := q

/-! ## Floating-point readings -/

/-- A C `float`, given by its IEEE-754 binary32 bit pattern.  The program only
tests such values with `isnan`, copies them, and stores the constant `0`. -/
abbrev CFloat := Nat

/-- The test `isnan`: exponent bits all ones and a non-zero mantissa. -/
def isnan (f : CFloat) : Bool := (f / 2 ^ 23) % 256 == 255 && f % 2 ^ 23 != 0

/-! ## Data model -/

/-- Constants of `main.h`.  The two thresholds are compared with the unsigned
`avgMoisture`, so they are given by their unsigned values. -/
structure Config where
  NUM_MOISTURE_SENSORS : Nat
  MIN_MOISTURE_VALUE : Int
  MAX_MOISTURE_VALUE : Int
  LOW_MOISTURE_TRIGGER : Nat
  TARGET_MOISTURE : Nat
  PUMP_SECONDS : Int
  WAIT_SECONDS : Int

/-- The record `struct SensorReadings` (lines 15-20). -/
structure SensorReadings where
  moisture : List Nat
  avgMoisture : Nat
  humidity : CFloat
  temperature : CFloat
  deriving DecidableEq, Repr

/-- The zero-initialised global `sensorReadings = {0}` of line 28. -/
def sensorReadingsInit (cfg : Config) : SensorReadings :=
  { moisture := List.replicate cfg.NUM_MOISTURE_SENSORS 0
    avgMoisture := 0
    humidity := 0
    temperature := 0 }

/-- The two output lines driven by the control context, named as in the
source; `main.h` assigns them two different GPIO numbers. -/
inductive Pin
  | PIN_PUMP
  | PIN_MOISTURE_VCC
  deriving DecidableEq, Repr

/-- Hardware events of the control context. -/
inductive Event
  | digitalWrite (pin : Pin) (level : Bool)
  | delay (ms : Int)
  | analogRead (channel : Nat)
  | getTemperature
  | getHumidity
  | display
  deriving DecidableEq, Repr

/-- What the sensors deliver during one `updateSensorReadings()`:
`adc i` is the result of `analogRead(PINS_MOISTURE[i])`, the other two are the
values left in `event` by the two `getEvent` calls. -/
structure SensorInput where
  adc : Nat → Int
  temperature : CFloat
  relative_humidity : CFloat

/-! ## Sensor acquisition -/

/-- The validity test of line 39. -/
def validReading (cfg : Config) (adc : Int) : Bool :=
  decide (adc ≥ cfg.MAX_MOISTURE_VALUE) && decide (adc ≤ cfg.MIN_MOISTURE_VALUE)

/-- The percentage stored on line 41. -/
def moisturePercent (cfg : Config) (adc : Int) : Nat :=
  toUint (map adc cfg.MIN_MOISTURE_VALUE cfg.MAX_MOISTURE_VALUE 0 100)

/-- The acquisition loop of lines 36-43, started at index `i` with `n`
iterations left. -/
def readLoop (cfg : Config) (adc : Nat → Int) : Nat → Nat → List Nat → List Nat × List Event
  | 0, _, m => (m, [])
  | n + 1, i, m =>
    let m1 := if validReading cfg (adc i) then m.set i (moisturePercent cfg (adc i)) else m
    let r := readLoop cfg adc n (i + 1) m1
    (r.1, Event.analogRead i :: r.2)

/-- The summation loop of lines 48-51 (`int avgMoisture`, `uint` slots),
started at index `i` with `n` iterations left. -/
def sumLoop (m : List Nat) : Nat → Nat → Int → Int
  | 0, _, acc => acc
  | n + 1, i, acc => sumLoop m n (i + 1) (toInt (acc + m.getD i 0))

/-- The value stored in `avgMoisture` on line 52. -/
def average (cfg : Config) (m : List Nat) : Nat :=
  toUint (round (Int.tdiv (sumLoop m cfg.NUM_MOISTURE_SENSORS 0 0) cfg.NUM_MOISTURE_SENSORS))

/-- Procedure `updateMoistureReadings` (lines 31-53). -/
def updateMoistureReadings (cfg : Config) (adc : Nat → Int) (s : SensorReadings) :
    SensorReadings × List Event :=
  let r := readLoop cfg adc cfg.NUM_MOISTURE_SENSORS 0 s.moisture
  ({ s with moisture := r.1, avgMoisture := average cfg r.1 },
   [Event.digitalWrite Pin.PIN_MOISTURE_VCC true, Event.delay 100] ++ r.2 ++
     [Event.digitalWrite Pin.PIN_MOISTURE_VCC false])

/-- The store to `temperature` of lines 59-63. -/
def storeTemperature (temperature : CFloat) (s : SensorReadings) : SensorReadings :=
  if isnan temperature then { s with temperature := 0 }
  else { s with temperature := temperature }

/-- The store to `humidity` of lines 66-70. -/
def storeHumidity (relative_humidity : CFloat) (s : SensorReadings) : SensorReadings :=
  if isnan relative_humidity then { s with humidity := 0 }
  else { s with humidity := relative_humidity }

/-- Procedure `updateTempHumidity` (lines 55-71). -/
def updateTempHumidity (temperature relative_humidity : CFloat) (s : SensorReadings) :
    SensorReadings × List Event :=
  (storeHumidity relative_humidity (storeTemperature temperature s),
   [Event.getTemperature, Event.getHumidity])

/-- Procedure `updateSensorReadings` (lines 73-76). -/
def updateSensorReadings (cfg : Config) (inp : SensorInput) (s : SensorReadings) :
    SensorReadings × List Event :=
  let r1 := updateMoistureReadings cfg inp.adc s
  let r2 := updateTempHumidity inp.temperature inp.relative_humidity r1.1
  (r2.1, r1.2 ++ r2.2)

/-! ## Pump, display and the control cycle -/

/-- Procedure `pumpWater` (lines 78-88). -/
def pumpWater (seconds : Int) : List Event :=
  [Event.display, Event.digitalWrite Pin.PIN_PUMP true, Event.delay (seconds * 1000),
   Event.digitalWrite Pin.PIN_PUMP false]

/-- Procedure `displayReadings` (lines 90-102). -/
def displayReadings : List Event := [Event.display]

/-- Result of running (part of) a control cycle. -/
structure Run where
  readings : SensorReadings
  trace : List Event
  finished : Bool
  deriving DecidableEq, Repr

/-- The loop `while (avgMoisture < TARGET_MOISTURE)` of lines 144-150.
`fuel` bounds the number of times the body is run, `k` is the index of the next
sensor input; `finished = false` means that the condition still held when the
fuel ran out. -/
def irrigate (cfg : Config) (inp : Nat → SensorInput) : Nat → Nat → SensorReadings → Run
  | fuel, k, s =>
    if s.avgMoisture < cfg.TARGET_MOISTURE then
      match fuel with
      | 0 => { readings := s, trace := [], finished := false }
      | fuel + 1 =>
        let r := updateSensorReadings cfg (inp k) s
        let rest := irrigate cfg inp fuel (k + 1) r.1
        { rest with
          trace := pumpWater cfg.PUMP_SECONDS ++ displayReadings ++
            [Event.delay (cfg.WAIT_SECONDS * 1000)] ++ r.2 ++ displayReadings ++ rest.trace }
    else { readings := s, trace := [], finished := true }

/-- Procedure `loop` (lines 137-154): one control cycle.  The cycle consumes
the sensor inputs `inp 0`, `inp 1`, ... in order. -/
def loop (cfg : Config) (inp : Nat → SensorInput) (fuel : Nat) (s : SensorReadings) : Run :=
  let r := updateSensorReadings cfg (inp 0) s
  if r.1.avgMoisture ≠ 0 ∧ r.1.avgMoisture ≤ cfg.LOW_MOISTURE_TRIGGER then
    let w := irrigate cfg inp fuel 1 r.1
    { w with trace := r.2 ++ displayReadings ++ w.trace }
  else
    { readings := r.1
      trace := r.2 ++ displayReadings ++ [Event.delay (cfg.WAIT_SECONDS * 1000)]
      finished := true }

/-- Number of pump activations in a trace. -/
def pumpCount (tr : List Event) : Nat :=
  tr.count (Event.digitalWrite Pin.PIN_PUMP true)

/-- Readings held after `j` further acquisitions, the first of which consumes
the sensor input `inp k`. -/
def acquired (cfg : Config) (inp : Nat → SensorInput) (k : Nat) (s : SensorReadings) :
    Nat → SensorReadings
  | 0 => s
  | j + 1 => (updateSensorReadings cfg (inp (k + j)) (acquired cfg inp k s j)).1

/-- Average moisture held after the acquisition number `j` of a control
cycle: `j = 0` is the acquisition at the start of the cycle, `j ≥ 1` the `j`-th
re-acquisition inside the irrigation loop. -/
def cycleAvg (cfg : Config) (inp : Nat → SensorInput) (s : SensorReadings) (j : Nat) : Nat :=
  (acquired cfg inp 0 s (j + 1)).avgMoisture

/-- Level of the pump pin after the events of a trace, given its level
before them (`setup` leaves the pin low). -/
def pumpLevel (level : Bool) : List Event → Bool
  | [] => level
  | Event.digitalWrite Pin.PIN_PUMP l :: tr => pumpLevel l tr
  | _ :: tr => pumpLevel level tr

/-- The event is a write to the pump pin. -/
def isPumpWrite : Event → Bool
  | Event.digitalWrite Pin.PIN_PUMP _ => true
  | _ => false

/-- Discipline of the pump pin over a trace that starts with the pin low: the
pin is low at the end, and at any point where it is high the trace is inside
one activation, either right after the write of HIGH and about to wait `ms`,
or right after that wait and about to write LOW. -/
def PumpSafe (ms : Int) (tr : List Event) : Prop :=
  pumpLevel false tr = false ∧
  ∀ pre e post, tr = pre ++ e :: post → pumpLevel false pre = true →
    ((∃ p, pre = p ++ [Event.digitalWrite Pin.PIN_PUMP true]) ∧ e = Event.delay ms) ∨
    ((∃ p, pre = p ++ [Event.digitalWrite Pin.PIN_PUMP true, Event.delay ms]) ∧
      e = Event.digitalWrite Pin.PIN_PUMP false)

/-- The Arduino runtime calls `loop()` again and again.  Each entry of `cycles`
gives the sensor inputs of one cycle and the number of irrigation iterations it
is allowed; a cycle that does not finish is the last one run. -/
def runLoops (cfg : Config) :
    List ((Nat → SensorInput) × Nat) → SensorReadings → SensorReadings × List Event
  | [], s => (s, [])
  | c :: rest, s =>
    let r := loop cfg c.1 c.2 s
    if r.finished then
      let r2 := runLoops cfg rest r.readings
      (r2.1, r.trace ++ r2.2)
    else (r.readings, r.trace)

/-- Mean of the slots rounded to the nearest integer, as the specification
words the aggregate (ties rounded up). -/
def roundedMean (m : List Nat) : Nat := (2 * m.sum + m.length) / (2 * m.length)

/-! ## The listener task -/

/-- The document assembled by `getReadingsJSON` (lines 104-119). -/
structure ReadingsDocument where
  moisture_values : List Nat
  avg_moisture : Nat
  humidity : CFloat
  temperature : CFloat
  deriving DecidableEq, Repr

/-- Procedure `getReadingsJSON` (lines 104-119), run by the listener task
without any synchronisation: the fields of the global record are read one
after the other, in the order of the source.  `atSlot i` is the record as it
stands when `moisture[i]` is read, `atAvg`, `atHumidity`, `atTemperature` the
record when the field of that name is read. -/
def getReadingsJSON (cfg : Config) (atSlot : Nat → SensorReadings)
    (atAvg atHumidity atTemperature : SensorReadings) : ReadingsDocument :=
  { moisture_values :=
      (List.range cfg.NUM_MOISTURE_SENSORS).map (fun i => (atSlot i).moisture.getD i 0)
    avg_moisture := atAvg.avgMoisture
    humidity := atHumidity.humidity
    temperature := atTemperature.temperature }

/-- Values the global record takes while `updateSensorReadings` runs on it, in
program order: after `k` iterations of the acquisition loop (`k = 0..N`, the
first being the record before the update), after the store to `avgMoisture`,
after the store to `temperature`, after the store to `humidity`. -/
def recordDuringUpdate (cfg : Config) (inp : SensorInput) (s : SensorReadings) :
    List SensorReadings :=
  (List.range (cfg.NUM_MOISTURE_SENSORS + 1)).map
      (fun k => { s with moisture := (readLoop cfg inp.adc k 0 s.moisture).1 }) ++
    [(updateMoistureReadings cfg inp.adc s).1,
     storeTemperature inp.temperature (updateMoistureReadings cfg inp.adc s).1,
     (updateSensorReadings cfg inp s).1]

/-- Sensor input with the given raw channel values and air readings. -/
def fullInput (raw : List Int) (temperature relative_humidity : CFloat) : SensorInput :=
  { adc := fun i => raw.getD i 0, temperature := temperature,
    relative_humidity := relative_humidity }

/-! ## Example configurations and inputs -/

/-- Three channels, raw value 100 when dry and 0 when submerged, thresholds
15 % and 50 %, 5 s of pumping, 60 s of waiting. -/
def exampleConfig : Config :=
  { NUM_MOISTURE_SENSORS := 3
    MIN_MOISTURE_VALUE := 100
    MAX_MOISTURE_VALUE := 0
    LOW_MOISTURE_TRIGGER := 15
    TARGET_MOISTURE := 50
    PUMP_SECONDS := 5
    WAIT_SECONDS := 60 }

/-- Sensor input with the given raw channel values and valid air readings. -/
def rawInput (raw : List Int) : SensorInput :=
  { adc := fun i => raw.getD i 0, temperature := 0x41A00000, relative_humidity := 0x42340000 }

/-- Every acquisition reads the percentages 20, 80 and 5. -/
def mixedInputs : Nat → SensorInput := fun _ => rawInput [80, 20, 95]

/-- Every acquisition reads 5 % on all channels. -/
def dryInputs : Nat → SensorInput := fun _ => rawInput [95, 95, 95]

/-- Reads 5 % on all channels three times, then 60 %. -/
def recoveringInputs : Nat → SensorInput :=
  fun j => if j < 3 then rawInput [95, 95, 95] else rawInput [40, 40, 40]

/-- A configuration whose target lies below the trigger level. -/
def invertedConfig : Config :=
  { exampleConfig with LOW_MOISTURE_TRIGGER := 50, TARGET_MOISTURE := 30 }

/-- Every acquisition reads 40 % on all channels. -/
def moistInputs : Nat → SensorInput := fun _ => rawInput [60, 60, 60]

/-- Reads 5 % on all channels at the start of the cycle and 0 % afterwards. -/
def dryingInputs : Nat → SensorInput :=
  fun j => if j = 0 then rawInput [95, 95, 95] else rawInput [100, 100, 100]

/-- Reads 5 % on all channels at the start of the cycle; afterwards every raw
value is out of range. -/
def stuckInputs : Nat → SensorInput :=
  fun j => if j = 0 then rawInput [95, 95, 95] else rawInput [200, 200, 200]

/-- The example configuration with the calibration bounds in rising order. -/
def risingConfig : Config :=
  { exampleConfig with MIN_MOISTURE_VALUE := 0, MAX_MOISTURE_VALUE := 100 }

/-- The example configuration with a dry calibration bound of 21474837, the
smallest span whose hundredfold does not fit in 32 bits. -/
def wideConfig : Config :=
  { exampleConfig with MIN_MOISTURE_VALUE := 21474837 }

/-- Sensor input of a first completed cycle: 5 % on all channels, 20 °C,
45 % relative humidity. -/
def firstCycleInput : SensorInput := fullInput [95, 95, 95] 0x41A00000 0x42340000

/-- Sensor input of the next cycle: 60 % on all channels, 25 °C, 50 % relative
humidity. -/
def secondCycleInput : SensorInput := fullInput [40, 40, 40] 0x41C80000 0x42480000

/-- The record after the first completed cycle. -/
def recordAfterFirstCycle : SensorReadings :=
  (updateSensorReadings exampleConfig firstCycleInput (sensorReadingsInit exampleConfig)).1

/-- The record in the middle of the second cycle, between
`updateMoistureReadings` and `updateTempHumidity`. -/
def recordMidSecondCycle : SensorReadings :=
  (updateMoistureReadings exampleConfig secondCycleInput.adc recordAfterFirstCycle).1

/-- The record after the second completed cycle. -/
def recordAfterSecondCycle : SensorReadings :=
  (updateSensorReadings exampleConfig secondCycleInput recordAfterFirstCycle).1

/-! ## Basic facts: acquisition -/

theorem updateTempHumidity_moisture (t h : CFloat) (s : SensorReadings) :
    (updateTempHumidity t h s).1.moisture = s.moisture ∧
    (updateTempHumidity t h s).1.avgMoisture = s.avgMoisture := by
  unfold updateTempHumidity storeHumidity storeTemperature
  by_cases ht : isnan t = true <;> by_cases hh : isnan h = true <;> simp [ht, hh]

theorem updateSensorReadings_moisture (cfg : Config) (inp : SensorInput) (s : SensorReadings) :
    (updateSensorReadings cfg inp s).1.moisture =
      (readLoop cfg inp.adc cfg.NUM_MOISTURE_SENSORS 0 s.moisture).1 := by
  simp [updateSensorReadings, (updateTempHumidity_moisture _ _ _).1, updateMoistureReadings]

theorem updateSensorReadings_avg (cfg : Config) (inp : SensorInput) (s : SensorReadings) :
    (updateSensorReadings cfg inp s).1.avgMoisture =
      average cfg (updateSensorReadings cfg inp s).1.moisture := by
  simp [updateSensorReadings, (updateTempHumidity_moisture _ _ _).1,
    (updateTempHumidity_moisture _ _ _).2, updateMoistureReadings]

theorem readLoop_unchanged (cfg : Config) (adc : Nat → Int) (n : Nat) :
    ∀ (i : Nat) (m : List Nat),
      (∀ j, i ≤ j → j < i + n → validReading cfg (adc j) = false) →
      (readLoop cfg adc n i m).1 = m := by
  induction n with
  | zero => intro i m _; simp [readLoop]
  | succ n ih =>
    intro i m h
    have hi : validReading cfg (adc i) = false := h i (Nat.le_refl i) (by omega)
    simp only [readLoop, hi]
    exact ih (i + 1) m (fun j h1 h2 => h j (by omega) (by omega))

theorem readLoop_length (cfg : Config) (adc : Nat → Int) (n : Nat) :
    ∀ (i : Nat) (m : List Nat), (readLoop cfg adc n i m).1.length = m.length := by
  induction n with
  | zero => intro i m; simp [readLoop]
  | succ n ih =>
    intro i m
    simp only [readLoop]
    rw [ih]
    split <;> simp

theorem readLoop_getElem (cfg : Config) (adc : Nat → Int) (n : Nat) :
    ∀ (i : Nat) (m : List Nat) (j : Nat),
      (readLoop cfg adc n i m).1[j]? =
        if i ≤ j ∧ j < i + n ∧ j < m.length ∧ validReading cfg (adc j) = true
        then some (moisturePercent cfg (adc j)) else m[j]? := by
  induction n with
  | zero =>
    intro i m j
    have hc : ¬ (i ≤ j ∧ j < i + 0 ∧ j < m.length ∧ validReading cfg (adc j) = true) :=
      fun h => by omega
    rw [if_neg hc]
    simp [readLoop]
  | succ n ih =>
    intro i m j
    simp only [readLoop]
    rw [ih]
    by_cases hv : validReading cfg (adc i) = true
    · simp only [hv, if_true, List.length_set, List.getElem?_set]
      by_cases hij : i = j
      · subst hij
        by_cases hl : i < m.length
        · simp [hl, hv]
        · simp [hl]
          omega
      · simp only [hij, if_false]
        by_cases hc : i + 1 ≤ j ∧ j < i + 1 + n ∧ j < m.length ∧ validReading cfg (adc j) = true
        · rw [if_pos hc, if_pos ⟨by omega, by omega, hc.2.2.1, hc.2.2.2⟩]
        · rw [if_neg hc, if_neg (fun h => hc ⟨by omega, by omega, h.2.2.1, h.2.2.2⟩)]
    · have hv2 : validReading cfg (adc i) = false := by simpa using hv
      simp only [hv2, Bool.false_eq_true, if_false]
      by_cases hc : i + 1 ≤ j ∧ j < i + 1 + n ∧ j < m.length ∧ validReading cfg (adc j) = true
      · rw [if_pos hc, if_pos ⟨by omega, by omega, hc.2.2.1, hc.2.2.2⟩]
      · rw [if_neg hc]
        by_cases hij : i = j
        · subst hij; simp [hv2]
        · rw [if_neg (fun h => hc ⟨by omega, by omega, h.2.2.1, h.2.2.2⟩)]

theorem validReading_iff (cfg : Config) (adc : Int) :
    validReading cfg adc = true ↔ cfg.MAX_MOISTURE_VALUE ≤ adc ∧ adc ≤ cfg.MIN_MOISTURE_VALUE := by
  simp [validReading]

theorem updateMoistureReadings_moisture (cfg : Config) (adc : Nat → Int) (s : SensorReadings) :
    (updateMoistureReadings cfg adc s).1.moisture =
      (readLoop cfg adc cfg.NUM_MOISTURE_SENSORS 0 s.moisture).1 := rfl

/-! ## Basic facts: the percentage mapping -/

theorem toUint_of_range (v : Int) (h0 : 0 ≤ v) (h1 : v < 2 ^ 32) : ((toUint v : Nat) : Int) = v := by
  unfold toUint
  rw [Int.emod_eq_of_lt h0 h1, Int.toNat_of_nonneg h0]

theorem toInt_of_bounds (x : Int) (h0 : -2 ^ 31 ≤ x) (h1 : x < 2 ^ 31) : toInt x = x := by
  unfold toInt
  rw [Int.emod_eq_of_lt (by omega) (by omega)]
  omega

/-- Quotient form shared by both orientations of the calibration bounds: a
distance `d` from the dry bound out of a span `w`. -/
theorem percent_quotient_bounds (d w : Int) (hd : 0 ≤ d) (hw : 0 < w) (hdw : d ≤ w) :
    0 ≤ d * 100 / w ∧ d * 100 / w ≤ 100 :=
  ⟨Int.ediv_nonneg (Int.mul_nonneg hd (by omega)) (by omega),
    Int.ediv_le_of_le_mul hw (by nlinarith)⟩

theorem map_rising (x lo hi : Int) (h : lo < hi) (hx : lo ≤ x) (hxh : x ≤ hi)
    (hspan : (hi - lo) * 100 < 2 ^ 31) :
    map x lo hi 0 100 = (x - lo) * 100 / (hi - lo) := by
  have e1 : toInt (hi - lo) = hi - lo := toInt_of_bounds _ (by omega) (by omega)
  have e2 : toInt (100 - 0) = 100 := by simp [toInt]
  have e3 : toInt (x - lo) = x - lo := toInt_of_bounds _ (by omega) (by omega)
  have e4 : toInt ((x - lo) * 100) = (x - lo) * 100 := toInt_of_bounds _ (by omega) (by omega)
  have q := percent_quotient_bounds (x - lo) (hi - lo) (by omega) (by omega) (by omega)
  have e5 : Int.tdiv ((x - lo) * 100) (hi - lo) = (x - lo) * 100 / (hi - lo) :=
    Int.tdiv_eq_ediv (by omega) (by omega)
  have e6 : toInt ((x - lo) * 100 / (hi - lo)) = (x - lo) * 100 / (hi - lo) :=
    toInt_of_bounds _ (by omega) (by omega)
  have e7 : toInt ((x - lo) * 100 / (hi - lo) + 0) = (x - lo) * 100 / (hi - lo) := by
    rw [add_zero]; exact e6
  unfold map
  simp only [e1, e2, e3, e4, e5, e6, e7]
  rw [if_neg (by omega)]

theorem map_falling (x lo hi : Int) (h : hi < lo) (hx : x ≤ lo) (hxh : hi ≤ x)
    (hspan : (lo - hi) * 100 < 2 ^ 31) :
    map x lo hi 0 100 = (lo - x) * 100 / (lo - hi) := by
  have e1 : toInt (hi - lo) = hi - lo := toInt_of_bounds _ (by omega) (by omega)
  have e2 : toInt (100 - 0) = 100 := by simp [toInt]
  have e3 : toInt (x - lo) = x - lo := toInt_of_bounds _ (by omega) (by omega)
  have e4 : toInt ((x - lo) * 100) = (x - lo) * 100 := toInt_of_bounds _ (by omega) (by omega)
  have q := percent_quotient_bounds (lo - x) (lo - hi) (by omega) (by omega) (by omega)
  have n1 : (x - lo) * 100 = -((lo - x) * 100) := by ring
  have n2 : hi - lo = -(lo - hi) := by ring
  have e5 : Int.tdiv ((x - lo) * 100) (hi - lo) = (lo - x) * 100 / (lo - hi) := by
    rw [n1, n2, Int.neg_tdiv, Int.tdiv_neg, neg_neg,
      Int.tdiv_eq_ediv (Int.mul_nonneg (by omega) (by omega)) (by omega)]
  have e6 : toInt ((lo - x) * 100 / (lo - hi)) = (lo - x) * 100 / (lo - hi) :=
    toInt_of_bounds _ (by omega) (by omega)
  have e7 : toInt ((lo - x) * 100 / (lo - hi) + 0) = (lo - x) * 100 / (lo - hi) := by
    rw [add_zero]; exact e6
  unfold map
  simp only [e1, e2, e3, e4, e5, e6, e7]
  rw [if_neg (by omega)]

/-! ## Basic facts: traces -/

theorem pumpCount_append (a b : List Event) :
    pumpCount (a ++ b) = pumpCount a + pumpCount b := by
  simp [pumpCount, List.count_append]

theorem pumpCount_pumpWater (seconds : Int) : pumpCount (pumpWater seconds) = 1 := by
  simp [pumpCount, pumpWater, List.count_cons]

theorem pumpCount_displayReadings : pumpCount displayReadings = 0 := by
  simp [pumpCount, displayReadings]

theorem readLoop_pumpCount (cfg : Config) (adc : Nat → Int) (n i : Nat) (m : List Nat) :
    pumpCount (readLoop cfg adc n i m).2 = 0 := by
  induction n generalizing i m with
  | zero => simp [readLoop, pumpCount]
  | succ n ih =>
    have h := ih (i + 1)
    simp only [pumpCount] at h ⊢
    simp [readLoop, List.count_cons, h]

theorem updateSensorReadings_pumpCount (cfg : Config) (inp : SensorInput) (s : SensorReadings) :
    pumpCount (updateSensorReadings cfg inp s).2 = 0 := by
  have h := readLoop_pumpCount cfg inp.adc cfg.NUM_MOISTURE_SENSORS 0 s.moisture
  simp only [pumpCount] at h
  simp [updateSensorReadings, updateMoistureReadings, updateTempHumidity, pumpCount,
    List.count_append, List.count_cons, h]

/-! ## Basic facts: the irrigation loop -/

theorem irrigate_done (cfg : Config) (inp : Nat → SensorInput) (fuel k : Nat)
    (s : SensorReadings) (h : cfg.TARGET_MOISTURE ≤ s.avgMoisture) :
    irrigate cfg inp fuel k s = { readings := s, trace := [], finished := true } := by
  unfold irrigate
  simp [Nat.not_lt.mpr h]

theorem irrigate_zero (cfg : Config) (inp : Nat → SensorInput) (k : Nat)
    (s : SensorReadings) (h : s.avgMoisture < cfg.TARGET_MOISTURE) :
    irrigate cfg inp 0 k s = { readings := s, trace := [], finished := false } := by
  unfold irrigate
  simp [h]

theorem irrigate_succ (cfg : Config) (inp : Nat → SensorInput) (fuel k : Nat)
    (s : SensorReadings) (h : s.avgMoisture < cfg.TARGET_MOISTURE) :
    irrigate cfg inp (fuel + 1) k s =
      { irrigate cfg inp fuel (k + 1) (updateSensorReadings cfg (inp k) s).1 with
        trace := pumpWater cfg.PUMP_SECONDS ++ displayReadings ++
          [Event.delay (cfg.WAIT_SECONDS * 1000)] ++ (updateSensorReadings cfg (inp k) s).2 ++
          displayReadings ++
          (irrigate cfg inp fuel (k + 1) (updateSensorReadings cfg (inp k) s).1).trace } := by
  rw [irrigate]
  simp [h]

theorem acquired_shift (cfg : Config) (inp : Nat → SensorInput) (k : Nat) (s : SensorReadings)
    (j : Nat) :
    acquired cfg inp k s (j + 1) =
      acquired cfg inp (k + 1) (updateSensorReadings cfg (inp k) s).1 j := by
  induction j with
  | zero => simp [acquired]
  | succ j ih =>
    rw [acquired, ih]
    simp [acquired, Nat.add_assoc, Nat.add_comm 1 j]

theorem irrigate_succ_pumpCount (cfg : Config) (inp : Nat → SensorInput) (fuel k : Nat)
    (s : SensorReadings) (h : s.avgMoisture < cfg.TARGET_MOISTURE) :
    pumpCount (irrigate cfg inp (fuel + 1) k s).trace =
      1 + pumpCount (irrigate cfg inp fuel (k + 1) (updateSensorReadings cfg (inp k) s).1).trace := by
  rw [irrigate_succ cfg inp fuel k s h]
  simp only [pumpCount_append, pumpCount_pumpWater, pumpCount_displayReadings,
    updateSensorReadings_pumpCount]
  simp [pumpCount]

/-- If the average first reaches the target after `n` re-acquisitions, the
loop ends there, after `n` pump activations. -/
theorem irrigate_exit (cfg : Config) (inp : Nat → SensorInput) (n : Nat) :
    ∀ (fuel k : Nat) (s : SensorReadings), n ≤ fuel →
      (∀ j, j < n → (acquired cfg inp k s j).avgMoisture < cfg.TARGET_MOISTURE) →
      cfg.TARGET_MOISTURE ≤ (acquired cfg inp k s n).avgMoisture →
      (irrigate cfg inp fuel k s).finished = true ∧
      pumpCount (irrigate cfg inp fuel k s).trace = n ∧
      (irrigate cfg inp fuel k s).readings = acquired cfg inp k s n := by
  induction n with
  | zero =>
    intro fuel k s _ _ hge
    rw [irrigate_done cfg inp fuel k s (by simpa [acquired] using hge)]
    simp [pumpCount, acquired]
  | succ n ih =>
    intro fuel k s hf hlt hge
    have h0 : s.avgMoisture < cfg.TARGET_MOISTURE := by
      simpa [acquired] using hlt 0 (Nat.succ_pos n)
    obtain ⟨f, rfl⟩ : ∃ f, fuel = f + 1 := ⟨fuel - 1, by omega⟩
    have hrec := ih f (k + 1) (updateSensorReadings cfg (inp k) s).1 (by omega)
      (fun j hj => by rw [← acquired_shift]; exact hlt (j + 1) (by omega))
      (by rw [← acquired_shift]; exact hge)
    refine ⟨?_, ?_, ?_⟩
    · rw [irrigate_succ cfg inp f k s h0]; exact hrec.1
    · rw [irrigate_succ_pumpCount cfg inp f k s h0, hrec.2.1]; omega
    · rw [irrigate_succ cfg inp f k s h0, acquired_shift]; exact hrec.2.2

/-- While the average stays below the target the loop keeps running: it uses
up all its fuel, one pump activation per iteration. -/
theorem irrigate_running (cfg : Config) (inp : Nat → SensorInput) (fuel : Nat) :
    ∀ (k : Nat) (s : SensorReadings),
      (∀ j, j ≤ fuel → (acquired cfg inp k s j).avgMoisture < cfg.TARGET_MOISTURE) →
      (irrigate cfg inp fuel k s).finished = false ∧
      pumpCount (irrigate cfg inp fuel k s).trace = fuel := by
  induction fuel with
  | zero =>
    intro k s h
    rw [irrigate_zero cfg inp k s (by simpa [acquired] using h 0 (Nat.le_refl 0))]
    simp [pumpCount]
  | succ f ih =>
    intro k s h
    have h0 : s.avgMoisture < cfg.TARGET_MOISTURE := by
      simpa [acquired] using h 0 (Nat.zero_le _)
    have hrec := ih (k + 1) (updateSensorReadings cfg (inp k) s).1
      (fun j hj => by rw [← acquired_shift]; exact h (j + 1) (by omega))
    refine ⟨?_, ?_⟩
    · rw [irrigate_succ cfg inp f k s h0]; exact hrec.1
    · rw [irrigate_succ_pumpCount cfg inp f k s h0, hrec.2]; omega

/-- With `n` iterations allowed and the first `n` averages below the target,
the pump is activated at least `n` times. -/
theorem irrigate_at_least (cfg : Config) (inp : Nat → SensorInput) (n : Nat) :
    ∀ (fuel k : Nat) (s : SensorReadings), n ≤ fuel →
      (∀ j, j < n → (acquired cfg inp k s j).avgMoisture < cfg.TARGET_MOISTURE) →
      n ≤ pumpCount (irrigate cfg inp fuel k s).trace := by
  induction n with
  | zero => intro _ _ _ _ _; exact Nat.zero_le _
  | succ n ih =>
    intro fuel k s hf hlt
    have h0 : s.avgMoisture < cfg.TARGET_MOISTURE := by
      simpa [acquired] using hlt 0 (Nat.succ_pos n)
    obtain ⟨f, rfl⟩ : ∃ f, fuel = f + 1 := ⟨fuel - 1, by omega⟩
    have hrec := ih f (k + 1) (updateSensorReadings cfg (inp k) s).1 (by omega)
      (fun j hj => by rw [← acquired_shift]; exact hlt (j + 1) (by omega))
    rw [irrigate_succ_pumpCount cfg inp f k s h0]; omega

/-- The readings the irrigation loop of a cycle works on are those of
`acquired`, counted from the start of the cycle. -/
theorem acquired_cycle (cfg : Config) (inp : Nat → SensorInput) (s : SensorReadings) (j : Nat) :
    (acquired cfg inp 1 (updateSensorReadings cfg (inp 0) s).1 j).avgMoisture =
      cycleAvg cfg inp s j := by
  unfold cycleAvg
  rw [acquired_shift]

theorem cycleAvg_zero (cfg : Config) (inp : Nat → SensorInput) (s : SensorReadings) :
    cycleAvg cfg inp s 0 = (updateSensorReadings cfg (inp 0) s).1.avgMoisture := by
  simp [cycleAvg, acquired]

theorem loop_triggered (cfg : Config) (inp : Nat → SensorInput) (fuel : Nat)
    (s : SensorReadings)
    (h : cycleAvg cfg inp s 0 ≠ 0 ∧ cycleAvg cfg inp s 0 ≤ cfg.LOW_MOISTURE_TRIGGER) :
    (loop cfg inp fuel s).finished =
        (irrigate cfg inp fuel 1 (updateSensorReadings cfg (inp 0) s).1).finished ∧
    pumpCount (loop cfg inp fuel s).trace =
        pumpCount (irrigate cfg inp fuel 1 (updateSensorReadings cfg (inp 0) s).1).trace ∧
    (loop cfg inp fuel s).readings =
        (irrigate cfg inp fuel 1 (updateSensorReadings cfg (inp 0) s).1).readings := by
  rw [cycleAvg_zero] at h
  unfold loop
  simp only [h, ne_eq, not_false_eq_true, and_self, if_true]
  simp only [pumpCount_append, pumpCount_displayReadings, updateSensorReadings_pumpCount]
  simp

theorem loop_not_triggered (cfg : Config) (inp : Nat → SensorInput) (fuel : Nat)
    (s : SensorReadings)
    (h : ¬ (cycleAvg cfg inp s 0 ≠ 0 ∧ cycleAvg cfg inp s 0 ≤ cfg.LOW_MOISTURE_TRIGGER)) :
    (loop cfg inp fuel s).finished = true ∧ pumpCount (loop cfg inp fuel s).trace = 0 ∧
    (loop cfg inp fuel s).readings = (updateSensorReadings cfg (inp 0) s).1 := by
  rw [cycleAvg_zero] at h
  unfold loop
  rw [if_neg h]
  simp only [pumpCount_append, pumpCount_displayReadings, updateSensorReadings_pumpCount]
  simp [pumpCount]

/-! ## Basic facts: the pump pin -/

theorem pumpLevel_cons (level : Bool) (e : Event) (tr : List Event) :
    pumpLevel level (e :: tr) =
      pumpLevel (match e with
        | Event.digitalWrite Pin.PIN_PUMP l => l
        | _ => level) tr := by
  cases e with
  | digitalWrite pin l => cases pin <;> simp [pumpLevel]
  | _ => simp [pumpLevel]

theorem pumpLevel_append (level : Bool) (a b : List Event) :
    pumpLevel level (a ++ b) = pumpLevel (pumpLevel level a) b := by
  induction a generalizing level with
  | nil => simp [pumpLevel]
  | cons e a ih => simp only [List.cons_append, pumpLevel_cons, ih]

theorem pumpLevel_of_no_write (level : Bool) (tr : List Event)
    (h : ∀ e, e ∈ tr → isPumpWrite e = false) : pumpLevel level tr = level := by
  induction tr with
  | nil => simp [pumpLevel]
  | cons e tr ih =>
    have he := h e (List.mem_cons_self e tr)
    have ht := ih (fun x hx => h x (List.mem_cons_of_mem e hx))
    rw [pumpLevel_cons]
    cases e with
    | digitalWrite pin l => cases pin <;> simp_all [isPumpWrite]
    | _ => simpa using ht

theorem PumpSafe_nil (ms : Int) : PumpSafe ms [] := by
  refine ⟨rfl, ?_⟩
  intro pre e post h
  simp at h

theorem PumpSafe_of_no_write (ms : Int) (tr : List Event)
    (h : ∀ e, e ∈ tr → isPumpWrite e = false) : PumpSafe ms tr := by
  refine ⟨pumpLevel_of_no_write false tr h, ?_⟩
  intro pre e post heq hlev
  have hpre : pumpLevel false pre = false :=
    pumpLevel_of_no_write false pre (fun x hx => h x (by rw [heq]; simp [hx]))
  rw [hpre] at hlev
  exact absurd hlev Bool.false_ne_true

theorem PumpSafe_append (ms : Int) (a b : List Event) (ha : PumpSafe ms a)
    (hb : PumpSafe ms b) : PumpSafe ms (a ++ b) := by
  refine ⟨by rw [pumpLevel_append, ha.1, hb.1], ?_⟩
  intro pre e post heq hlev
  rcases List.append_eq_append_iff.mp heq with ⟨a', hpre, hb'⟩ | ⟨c', ha', hc'⟩
  · rw [hpre, pumpLevel_append, ha.1] at hlev
    rcases hb.2 a' e post hb' hlev with ⟨⟨p, hp⟩, he⟩ | ⟨⟨p, hp⟩, he⟩
    · exact Or.inl ⟨⟨a ++ p, by rw [hpre, hp, List.append_assoc]⟩, he⟩
    · exact Or.inr ⟨⟨a ++ p, by rw [hpre, hp, List.append_assoc]⟩, he⟩
  · cases c' with
    | nil =>
      simp only [List.append_nil] at ha'
      rw [← ha', ha.1] at hlev
      exact absurd hlev Bool.false_ne_true
    | cons x c'' =>
      simp only [List.cons_append, List.cons.injEq] at hc'
      obtain ⟨hx, _⟩ := hc'
      subst hx
      exact ha.2 pre e c'' ha' hlev

theorem PumpSafe_pumpWater (seconds : Int) : PumpSafe (seconds * 1000) (pumpWater seconds) := by
  refine ⟨by simp [pumpWater, pumpLevel], ?_⟩
  intro pre e post heq hlev
  unfold pumpWater at heq
  rcases pre with _ | ⟨x1, _ | ⟨x2, _ | ⟨x3, _ | ⟨x4, pre⟩⟩⟩⟩
  · simp [pumpLevel] at hlev
  · simp at heq
    obtain ⟨h1, _⟩ := heq
    subst h1
    simp [pumpLevel] at hlev
  · simp at heq
    obtain ⟨h1, h2, h3, _⟩ := heq
    subst h1 h2 h3
    exact Or.inl ⟨⟨[Event.display], rfl⟩, rfl⟩
  · simp at heq
    obtain ⟨h1, h2, h3, h4, _⟩ := heq
    subst h1 h2 h3 h4
    exact Or.inr ⟨⟨[Event.display], rfl⟩, rfl⟩
  · simp at heq

theorem readLoop_no_write (cfg : Config) (adc : Nat → Int) (n : Nat) :
    ∀ (i : Nat) (m : List Nat) (e : Event), e ∈ (readLoop cfg adc n i m).2 →
      isPumpWrite e = false := by
  induction n with
  | zero => intro i m e h; simp [readLoop] at h
  | succ n ih =>
    intro i m e h
    simp only [readLoop, List.mem_cons] at h
    rcases h with h | h
    · subst h; rfl
    · exact ih _ _ e h

theorem updateSensorReadings_no_write (cfg : Config) (inp : SensorInput) (s : SensorReadings)
    (e : Event) (h : e ∈ (updateSensorReadings cfg inp s).2) : isPumpWrite e = false := by
  simp only [updateSensorReadings, updateMoistureReadings, updateTempHumidity,
    List.mem_append, List.mem_cons, List.mem_singleton, List.not_mem_nil, or_false] at h
  rcases h with (((h | h) | h) | h) | h | h
  · subst h; rfl
  · subst h; rfl
  · exact readLoop_no_write cfg inp.adc _ _ _ e h
  · subst h; rfl
  · subst h; rfl
  · subst h; rfl

theorem PumpSafe_displayReadings (ms : Int) : PumpSafe ms displayReadings :=
  PumpSafe_of_no_write ms _ (fun e h => by
    simp only [displayReadings, List.mem_singleton] at h
    subst h; rfl)

theorem PumpSafe_delay (ms x : Int) : PumpSafe ms [Event.delay x] :=
  PumpSafe_of_no_write ms _ (fun e h => by
    simp only [List.mem_singleton] at h
    subst h; rfl)

theorem PumpSafe_irrigate (cfg : Config) (inp : Nat → SensorInput) (fuel : Nat) :
    ∀ (k : Nat) (s : SensorReadings),
      PumpSafe (cfg.PUMP_SECONDS * 1000) (irrigate cfg inp fuel k s).trace := by
  induction fuel with
  | zero =>
    intro k s
    by_cases h : s.avgMoisture < cfg.TARGET_MOISTURE
    · rw [irrigate_zero cfg inp k s h]; exact PumpSafe_nil _
    · rw [irrigate_done cfg inp 0 k s (by omega)]; exact PumpSafe_nil _
  | succ f ih =>
    intro k s
    by_cases h : s.avgMoisture < cfg.TARGET_MOISTURE
    · rw [irrigate_succ cfg inp f k s h]
      refine PumpSafe_append _ _ _ (PumpSafe_append _ _ _ (PumpSafe_append _ _ _
        (PumpSafe_append _ _ _ (PumpSafe_append _ _ _ (PumpSafe_pumpWater _)
          (PumpSafe_displayReadings _)) (PumpSafe_delay _ _))
        (PumpSafe_of_no_write _ _ (updateSensorReadings_no_write cfg (inp k) s)))
        (PumpSafe_displayReadings _)) (ih _ _)
    · rw [irrigate_done cfg inp (f + 1) k s (by omega)]; exact PumpSafe_nil _

theorem PumpSafe_loop (cfg : Config) (inp : Nat → SensorInput) (fuel : Nat)
    (s : SensorReadings) : PumpSafe (cfg.PUMP_SECONDS * 1000) (loop cfg inp fuel s).trace := by
  unfold loop
  by_cases h : (updateSensorReadings cfg (inp 0) s).1.avgMoisture ≠ 0 ∧
      (updateSensorReadings cfg (inp 0) s).1.avgMoisture ≤ cfg.LOW_MOISTURE_TRIGGER
  · rw [if_pos h]
    exact PumpSafe_append _ _ _ (PumpSafe_append _ _ _
      (PumpSafe_of_no_write _ _ (updateSensorReadings_no_write cfg (inp 0) s))
      (PumpSafe_displayReadings _)) (PumpSafe_irrigate cfg inp fuel 1 _)
  · rw [if_neg h]
    exact PumpSafe_append _ _ _ (PumpSafe_append _ _ _
      (PumpSafe_of_no_write _ _ (updateSensorReadings_no_write cfg (inp 0) s))
      (PumpSafe_displayReadings _)) (PumpSafe_delay _ _)

/-- In a trace that respects the pump discipline, every write of HIGH to the
pump pin is directly followed by the delay and the write of LOW. -/
theorem PumpSafe_high_followed (ms : Int) (tr : List Event) (h : PumpSafe ms tr)
    (pre post : List Event)
    (heq : tr = pre ++ Event.digitalWrite Pin.PIN_PUMP true :: post) :
    ∃ rest, post = Event.delay ms :: Event.digitalWrite Pin.PIN_PUMP false :: rest := by
  have hl1 : pumpLevel false (pre ++ [Event.digitalWrite Pin.PIN_PUMP true]) = true := by
    rw [pumpLevel_append]; simp [pumpLevel]
  cases post with
  | nil =>
    have := h.1
    rw [heq, hl1] at this
    exact absurd this.symm Bool.false_ne_true
  | cons e post1 =>
    have heq1 : tr = (pre ++ [Event.digitalWrite Pin.PIN_PUMP true]) ++ e :: post1 := by
      rw [heq]; simp
    have he : e = Event.delay ms := by
      rcases h.2 _ e post1 heq1 hl1 with ⟨_, he⟩ | ⟨⟨p, hp⟩, _⟩
      · exact he
      · have := congrArg List.getLast? hp
        simp at this
    subst he
    have hl2 : pumpLevel false
        (pre ++ [Event.digitalWrite Pin.PIN_PUMP true, Event.delay ms]) = true := by
      rw [pumpLevel_append]; simp [pumpLevel]
    cases post1 with
    | nil =>
      have := h.1
      rw [heq] at this
      have heq2 : pre ++ [Event.digitalWrite Pin.PIN_PUMP true, Event.delay ms] =
          pre ++ Event.digitalWrite Pin.PIN_PUMP true :: [Event.delay ms] := rfl
      rw [← heq2, hl2] at this
      exact absurd this.symm Bool.false_ne_true
    | cons e2 rest =>
      have heq2 : tr = (pre ++ [Event.digitalWrite Pin.PIN_PUMP true, Event.delay ms]) ++
          e2 :: rest := by
        rw [heq]; simp
      rcases h.2 _ e2 rest heq2 hl2 with ⟨⟨p, hp⟩, _⟩ | ⟨_, he2⟩
      · have := congrArg List.getLast? hp
        simp at this
      · exact ⟨rest, by rw [he2]⟩

/-! ## Out-of-range readings leave the stored value alone (C5) -/

/-- C5: `updateMoistureReadings` keeps the length of the moisture array;
slot `i` receives the mapped percentage exactly when the raw reading passes the
test `adc >= MAX_MOISTURE_VALUE && adc <= MIN_MOISTURE_VALUE` and keeps its
previous value otherwise; hence a slot whose raw reading lies outside the
closed range between the two calibration bounds is unchanged, a slot that
changes has a raw reading inside that range and holds the mapped percentage,
and if every raw reading is out of range the whole array is unchanged.
Temperature and humidity are not touched. -/
theorem updateMoistureReadings_frame (cfg : Config) (adc : Nat → Int) (s : SensorReadings)
    (hlen : s.moisture.length = cfg.NUM_MOISTURE_SENSORS) :
    (updateMoistureReadings cfg adc s).1.moisture.length = cfg.NUM_MOISTURE_SENSORS ∧
    (∀ i, i < cfg.NUM_MOISTURE_SENSORS →
      (updateMoistureReadings cfg adc s).1.moisture[i]? =
        if cfg.MAX_MOISTURE_VALUE ≤ adc i ∧ adc i ≤ cfg.MIN_MOISTURE_VALUE
        then some (moisturePercent cfg (adc i)) else s.moisture[i]?) ∧
    (∀ i, i < cfg.NUM_MOISTURE_SENSORS →
      (adc i < min cfg.MIN_MOISTURE_VALUE cfg.MAX_MOISTURE_VALUE ∨
        max cfg.MIN_MOISTURE_VALUE cfg.MAX_MOISTURE_VALUE < adc i) →
      (updateMoistureReadings cfg adc s).1.moisture[i]? = s.moisture[i]?) ∧
    (∀ i, i < cfg.NUM_MOISTURE_SENSORS →
      (updateMoistureReadings cfg adc s).1.moisture[i]? ≠ s.moisture[i]? →
      (min cfg.MIN_MOISTURE_VALUE cfg.MAX_MOISTURE_VALUE ≤ adc i ∧
        adc i ≤ max cfg.MIN_MOISTURE_VALUE cfg.MAX_MOISTURE_VALUE) ∧
      (updateMoistureReadings cfg adc s).1.moisture[i]? = some (moisturePercent cfg (adc i))) ∧
    ((∀ i, i < cfg.NUM_MOISTURE_SENSORS →
        (adc i < min cfg.MIN_MOISTURE_VALUE cfg.MAX_MOISTURE_VALUE ∨
          max cfg.MIN_MOISTURE_VALUE cfg.MAX_MOISTURE_VALUE < adc i)) →
      (updateMoistureReadings cfg adc s).1.moisture = s.moisture) ∧
    (updateMoistureReadings cfg adc s).1.temperature = s.temperature ∧
    (updateMoistureReadings cfg adc s).1.humidity = s.humidity := by
  have key : ∀ i, i < cfg.NUM_MOISTURE_SENSORS →
      (updateMoistureReadings cfg adc s).1.moisture[i]? =
        if cfg.MAX_MOISTURE_VALUE ≤ adc i ∧ adc i ≤ cfg.MIN_MOISTURE_VALUE
        then some (moisturePercent cfg (adc i)) else s.moisture[i]? := by
    intro i hi
    rw [updateMoistureReadings_moisture, readLoop_getElem]
    by_cases hv : cfg.MAX_MOISTURE_VALUE ≤ adc i ∧ adc i ≤ cfg.MIN_MOISTURE_VALUE
    · rw [if_pos hv, if_pos ⟨Nat.zero_le _, by omega, by omega, (validReading_iff cfg _).mpr hv⟩]
    · rw [if_neg hv, if_neg (fun h => hv ((validReading_iff cfg _).mp h.2.2.2))]
  have out : ∀ x : Int, (x < min cfg.MIN_MOISTURE_VALUE cfg.MAX_MOISTURE_VALUE ∨
      max cfg.MIN_MOISTURE_VALUE cfg.MAX_MOISTURE_VALUE < x) →
      ¬ (cfg.MAX_MOISTURE_VALUE ≤ x ∧ x ≤ cfg.MIN_MOISTURE_VALUE) := by
    intro x hx h
    rcases hx with hx | hx
    · rcases min_choice cfg.MIN_MOISTURE_VALUE cfg.MAX_MOISTURE_VALUE with hm | hm <;>
        rw [hm] at hx <;> omega
    · rcases max_choice cfg.MIN_MOISTURE_VALUE cfg.MAX_MOISTURE_VALUE with hm | hm <;>
        rw [hm] at hx <;> omega
  refine ⟨?_, key, ?_, ?_, ?_, rfl, rfl⟩
  · rw [updateMoistureReadings_moisture, readLoop_length, hlen]
  · intro i hi hout
    rw [key i hi, if_neg (out _ hout)]
  · intro i hi hne
    rw [key i hi] at hne ⊢
    by_cases hv : cfg.MAX_MOISTURE_VALUE ≤ adc i ∧ adc i ≤ cfg.MIN_MOISTURE_VALUE
    · rw [if_pos hv]
      exact ⟨⟨le_trans (min_le_right _ _) hv.1, le_trans hv.2 (le_max_left _ _)⟩, rfl⟩
    · rw [if_neg hv] at hne
      exact absurd rfl hne
  · intro hall
    rw [updateMoistureReadings_moisture]
    exact readLoop_unchanged cfg adc _ 0 _ (fun j _ hj => by
      have := out _ (hall j (by omega))
      cases hv : validReading cfg (adc j) with
      | false => rfl
      | true => exact absurd ((validReading_iff cfg _).mp hv) this)

/-- C5, example: with the slots at 20 %, 80 % and 5 %, an acquisition whose
second raw value is out of range replaces the first and third slots only, and
an acquisition with all raw values out of range changes nothing. -/
theorem updateMoistureReadings_frame_witness :
    [20, 80, 5].length = exampleConfig.NUM_MOISTURE_SENSORS ∧
    (updateMoistureReadings exampleConfig (rawInput [70, 200, 10]).adc
      { sensorReadingsInit exampleConfig with moisture := [20, 80, 5] }).1.moisture =
        [30, 80, 90] ∧
    (updateMoistureReadings exampleConfig (rawInput [-1, 200, 101]).adc
      { sensorReadingsInit exampleConfig with moisture := [20, 80, 5] }).1.moisture =
        [20, 80, 5] :=
  ⟨by decide, by decide,
    (updateMoistureReadings_frame exampleConfig (rawInput [-1, 200, 101]).adc
      { sensorReadingsInit exampleConfig with moisture := [20, 80, 5] } (by decide)).2.2.2.2.1
      (fun i hi => by
        have h : i = 0 ∨ i = 1 ∨ i = 2 := by
          have : i < 3 := hi
          omega
        rcases h with h | h | h <;> subst h <;> decide)⟩

/-! ## The mapped percentage (C6) -/

/-- C6, as stated, fails: with `MIN_MOISTURE_VALUE = 21474837` and
`MAX_MOISTURE_VALUE = 0` the raw value 0 passes the validity test, the product
`(0 - 21474837) * 100` does not fit in 32 bits, `map` returns -99 and the slot
receives 4294967197 instead of 100; with `MIN_MOISTURE_VALUE = 2000000000` the
slot receives 0 at `MAX_MOISTURE_VALUE`. -/
theorem moisturePercent_overflow_counterexample :
    wideConfig.MIN_MOISTURE_VALUE ≠ wideConfig.MAX_MOISTURE_VALUE ∧
    validReading wideConfig wideConfig.MAX_MOISTURE_VALUE = true ∧
    map wideConfig.MAX_MOISTURE_VALUE wideConfig.MIN_MOISTURE_VALUE
      wideConfig.MAX_MOISTURE_VALUE 0 100 = -99 ∧
    moisturePercent wideConfig wideConfig.MAX_MOISTURE_VALUE = 4294967197 ∧
    ¬ (moisturePercent wideConfig wideConfig.MAX_MOISTURE_VALUE ≤ 100) ∧
    (updateMoistureReadings wideConfig (rawInput [0, 0, 0]).adc
      (sensorReadingsInit wideConfig)).1.moisture = [4294967197, 4294967197, 4294967197] ∧
    moisturePercent { wideConfig with MIN_MOISTURE_VALUE := 2000000000 } 0 = 0 := by
  decide

/-- C6 (amended): for calibration bounds `MIN_MOISTURE_VALUE != MAX_MOISTURE_VALUE`
whose span satisfies `|MAX_MOISTURE_VALUE - MIN_MOISTURE_VALUE| * 100 < 2^31`, and
raw values `a`, `b` between the two bounds (inclusive), the value of `map` lies
in `[0,100]`, the stored percentage `uint(map(...))` is that value, and if `a`
is at least as close to `MAX_MOISTURE_VALUE` as `b` is, the percentage stored
for `a` is at least the one stored for `b`; the percentage is 0 at
`MIN_MOISTURE_VALUE` and 100 at `MAX_MOISTURE_VALUE`. -/
theorem moisturePercent_range_monotone (cfg : Config) (a b : Int)
    (hne : cfg.MIN_MOISTURE_VALUE ≠ cfg.MAX_MOISTURE_VALUE)
    (ha : min cfg.MIN_MOISTURE_VALUE cfg.MAX_MOISTURE_VALUE ≤ a ∧
      a ≤ max cfg.MIN_MOISTURE_VALUE cfg.MAX_MOISTURE_VALUE)
    (hb : min cfg.MIN_MOISTURE_VALUE cfg.MAX_MOISTURE_VALUE ≤ b ∧
      b ≤ max cfg.MIN_MOISTURE_VALUE cfg.MAX_MOISTURE_VALUE)
    (hspan : |cfg.MAX_MOISTURE_VALUE - cfg.MIN_MOISTURE_VALUE| * 100 < 2 ^ 31)
    (hclose : |a - cfg.MAX_MOISTURE_VALUE| ≤ |b - cfg.MAX_MOISTURE_VALUE|) :
    (0 ≤ map a cfg.MIN_MOISTURE_VALUE cfg.MAX_MOISTURE_VALUE 0 100 ∧
      map a cfg.MIN_MOISTURE_VALUE cfg.MAX_MOISTURE_VALUE 0 100 ≤ 100) ∧
    ((moisturePercent cfg a : Nat) : Int) =
      map a cfg.MIN_MOISTURE_VALUE cfg.MAX_MOISTURE_VALUE 0 100 ∧
    moisturePercent cfg a ≤ 100 ∧
    moisturePercent cfg b ≤ moisturePercent cfg a ∧
    moisturePercent cfg cfg.MIN_MOISTURE_VALUE = 0 ∧
    moisturePercent cfg cfg.MAX_MOISTURE_VALUE = 100 := by
  have cast : ∀ x : Int, (0 ≤ map x cfg.MIN_MOISTURE_VALUE cfg.MAX_MOISTURE_VALUE 0 100 ∧
      map x cfg.MIN_MOISTURE_VALUE cfg.MAX_MOISTURE_VALUE 0 100 ≤ 100) →
      ((moisturePercent cfg x : Nat) : Int) =
        map x cfg.MIN_MOISTURE_VALUE cfg.MAX_MOISTURE_VALUE 0 100 :=
    fun x hx => toUint_of_range _ hx.1 (by have := hx.2; omega)
  rcases lt_or_gt_of_ne hne with hlt | hgt
  · -- raw values grow with moisture
    rw [min_eq_left (le_of_lt hlt), max_eq_right (le_of_lt hlt)] at ha hb
    rw [abs_of_nonpos (by omega), abs_of_nonpos (by omega)] at hclose
    rw [abs_of_pos (by omega)] at hspan
    have hba : b ≤ a := by omega
    have ra := map_rising a _ _ hlt ha.1 ha.2 hspan
    have rb := map_rising b _ _ hlt hb.1 hb.2 hspan
    have ba := percent_quotient_bounds (a - cfg.MIN_MOISTURE_VALUE)
      (cfg.MAX_MOISTURE_VALUE - cfg.MIN_MOISTURE_VALUE) (by omega) (by omega) (by omega)
    have bb := percent_quotient_bounds (b - cfg.MIN_MOISTURE_VALUE)
      (cfg.MAX_MOISTURE_VALUE - cfg.MIN_MOISTURE_VALUE) (by omega) (by omega) (by omega)
    rw [← ra] at ba
    rw [← rb] at bb
    have mono : map b cfg.MIN_MOISTURE_VALUE cfg.MAX_MOISTURE_VALUE 0 100 ≤
        map a cfg.MIN_MOISTURE_VALUE cfg.MAX_MOISTURE_VALUE 0 100 := by
      rw [ra, rb]
      exact Int.ediv_le_ediv (by omega) (by nlinarith)
    have ca := cast a ba
    have cb := cast b bb
    have r0 := map_rising cfg.MIN_MOISTURE_VALUE _ _ hlt (le_refl _) (le_of_lt hlt) hspan
    have r1 := map_rising cfg.MAX_MOISTURE_VALUE _ _ hlt (le_of_lt hlt) (le_refl _) hspan
    have v0 : map cfg.MIN_MOISTURE_VALUE cfg.MIN_MOISTURE_VALUE cfg.MAX_MOISTURE_VALUE 0 100 = 0 := by
      rw [r0]; simp
    have v1 : map cfg.MAX_MOISTURE_VALUE cfg.MIN_MOISTURE_VALUE cfg.MAX_MOISTURE_VALUE 0 100 = 100 := by
      rw [r1, mul_comm]
      exact Int.mul_ediv_cancel _ (by omega)
    have c0 := cast cfg.MIN_MOISTURE_VALUE (by rw [v0]; omega)
    have c1 := cast cfg.MAX_MOISTURE_VALUE (by rw [v1]; omega)
    refine ⟨ba, ca, ?_, ?_, ?_, ?_⟩ <;> omega
  · -- raw values fall with moisture
    have hgt2 : cfg.MAX_MOISTURE_VALUE < cfg.MIN_MOISTURE_VALUE := hgt
    rw [min_eq_right (le_of_lt hgt2), max_eq_left (le_of_lt hgt2)] at ha hb
    rw [abs_of_nonneg (by omega), abs_of_nonneg (by omega)] at hclose
    rw [abs_of_neg (by omega)] at hspan
    have hspan2 : (cfg.MIN_MOISTURE_VALUE - cfg.MAX_MOISTURE_VALUE) * 100 < 2 ^ 31 := by omega
    have hab : a ≤ b := by omega
    have ra := map_falling a _ _ hgt2 ha.2 ha.1 hspan2
    have rb := map_falling b _ _ hgt2 hb.2 hb.1 hspan2
    have ba := percent_quotient_bounds (cfg.MIN_MOISTURE_VALUE - a)
      (cfg.MIN_MOISTURE_VALUE - cfg.MAX_MOISTURE_VALUE) (by omega) (by omega) (by omega)
    have bb := percent_quotient_bounds (cfg.MIN_MOISTURE_VALUE - b)
      (cfg.MIN_MOISTURE_VALUE - cfg.MAX_MOISTURE_VALUE) (by omega) (by omega) (by omega)
    rw [← ra] at ba
    rw [← rb] at bb
    have mono : map b cfg.MIN_MOISTURE_VALUE cfg.MAX_MOISTURE_VALUE 0 100 ≤
        map a cfg.MIN_MOISTURE_VALUE cfg.MAX_MOISTURE_VALUE 0 100 := by
      rw [ra, rb]
      exact Int.ediv_le_ediv (by omega) (by nlinarith)
    have ca := cast a ba
    have cb := cast b bb
    have r0 := map_falling cfg.MIN_MOISTURE_VALUE _ _ hgt2 (le_refl _) (le_of_lt hgt2) hspan2
    have r1 := map_falling cfg.MAX_MOISTURE_VALUE _ _ hgt2 (le_of_lt hgt2) (le_refl _) hspan2
    have v0 : map cfg.MIN_MOISTURE_VALUE cfg.MIN_MOISTURE_VALUE cfg.MAX_MOISTURE_VALUE 0 100 = 0 := by
      rw [r0]; simp
    have v1 : map cfg.MAX_MOISTURE_VALUE cfg.MIN_MOISTURE_VALUE cfg.MAX_MOISTURE_VALUE 0 100 = 100 := by
      rw [r1, mul_comm]
      exact Int.mul_ediv_cancel _ (by omega)
    have c0 := cast cfg.MIN_MOISTURE_VALUE (by rw [v0]; omega)
    have c1 := cast cfg.MAX_MOISTURE_VALUE (by rw [v1]; omega)
    refine ⟨ba, ca, ?_, ?_, ?_, ?_⟩ <;> omega

/-- C6, example: with raw value 100 when dry and 0 when submerged, the raw
values 40 and 95 map to 60 % and 5 %. -/
theorem moisturePercent_range_monotone_witness :
    exampleConfig.MIN_MOISTURE_VALUE ≠ exampleConfig.MAX_MOISTURE_VALUE ∧
    |exampleConfig.MAX_MOISTURE_VALUE - exampleConfig.MIN_MOISTURE_VALUE| * 100 < 2 ^ 31 ∧
    moisturePercent exampleConfig 40 = 60 ∧ moisturePercent exampleConfig 95 = 5 ∧
    moisturePercent exampleConfig 95 ≤ moisturePercent exampleConfig 40 :=
  ⟨by decide, by decide, by decide, by decide,
    (moisturePercent_range_monotone exampleConfig 40 95 (by decide) (by decide) (by decide)
      (by decide) (by decide)).2.2.2.1⟩

/-! ## Temperature and humidity (C7) -/

/-- C7: `updateTempHumidity` stores 0 in `temperature` if the temperature
reading is not-a-number and the reading otherwise, and likewise, independently,
for `humidity`; the result does not depend on the values held before, and
`moisture` and `avgMoisture` are unchanged. -/
theorem updateTempHumidity_sentinel (t h : CFloat) (s : SensorReadings) :
    (updateTempHumidity t h s).1.temperature = (if isnan t then 0 else t) ∧
    (updateTempHumidity t h s).1.humidity = (if isnan h then 0 else h) ∧
    (updateTempHumidity t h s).1.moisture = s.moisture ∧
    (updateTempHumidity t h s).1.avgMoisture = s.avgMoisture := by
  unfold updateTempHumidity storeHumidity storeTemperature
  by_cases ht : isnan t = true <;> by_cases hh : isnan h = true <;> simp [ht, hh]

/-! ## The average (C4) -/

theorem toInt_of_range (x : Int) (h0 : 0 ≤ x) (h1 : x < 2 ^ 31) : toInt x = x := by
  unfold toInt
  rw [Int.emod_eq_of_lt (by omega) (by omega)]
  omega

theorem take_drop_sum_succ (m : List Nat) (n i : Nat) :
    ((m.drop i).take (n + 1)).sum = m.getD i 0 + ((m.drop (i + 1)).take n).sum := by
  by_cases hi : i < m.length
  · have hd : m.drop i = m[i] :: m.drop (i + 1) := List.drop_eq_getElem_cons hi
    have hg : m.getD i 0 = m[i] := by
      rw [List.getD_eq_getElem?_getD, List.getElem?_eq_getElem hi]; rfl
    rw [hd, hg, List.take_succ_cons, List.sum_cons]
  · have h1 : m.drop i = [] := List.drop_eq_nil_of_le (by omega)
    have h2 : m.drop (i + 1) = [] := List.drop_eq_nil_of_le (by omega)
    have h3 : m.getD i 0 = 0 := by
      rw [List.getD_eq_getElem?_getD, List.getElem?_eq_none (show m.length ≤ i by omega)]; rfl
    rw [h1, h2, h3]; simp

theorem sumLoop_eq (m : List Nat) (n : Nat) :
    ∀ (i : Nat) (acc : Int), 0 ≤ acc → acc + (((m.drop i).take n).sum : Nat) < 2 ^ 31 →
      sumLoop m n i acc = acc + (((m.drop i).take n).sum : Nat) := by
  induction n with
  | zero => intro i acc _ _; simp [sumLoop]
  | succ n ih =>
    intro i acc h0 h1
    rw [take_drop_sum_succ, Nat.cast_add] at h1 ⊢
    have hrest : (0 : Int) ≤ (((m.drop (i + 1)).take n).sum : Nat) := Int.natCast_nonneg _
    have hget : (0 : Int) ≤ (m.getD i 0 : Nat) := Int.natCast_nonneg _
    simp only [sumLoop]
    rw [toInt_of_range _ (by omega) (by omega), ih (i + 1) _ (by omega) (by omega)]
    omega

/-- What the code stores: as long as the sum of the slots fits in an `int`,
`avgMoisture` is the mean of the slots rounded down. -/
theorem average_eq_floor (cfg : Config) (m : List Nat)
    (hlen : m.length = cfg.NUM_MOISTURE_SENSORS) (hsum : m.sum < 2 ^ 31) :
    average cfg m = m.sum / cfg.NUM_MOISTURE_SENSORS := by
  have htake : ((m.drop 0).take cfg.NUM_MOISTURE_SENSORS).sum = m.sum := by
    rw [List.drop_zero, ← hlen, List.take_length]
  have hs : sumLoop m cfg.NUM_MOISTURE_SENSORS 0 0 = ((m.sum : Nat) : Int) := by
    have h := sumLoop_eq m cfg.NUM_MOISTURE_SENSORS 0 0 (le_refl _) (by rw [htake]; omega)
    rw [h, htake]; simp
  have h0 : (0 : Int) ≤ (m.sum : Nat) := Int.natCast_nonneg _
  have hN : (0 : Int) ≤ (cfg.NUM_MOISTURE_SENSORS : Nat) := Int.natCast_nonneg _
  have hq : ((m.sum : Nat) : Int) / (cfg.NUM_MOISTURE_SENSORS : Int) =
      ((m.sum / cfg.NUM_MOISTURE_SENSORS : Nat) : Int) := (Int.natCast_div _ _).symm
  have hle : m.sum / cfg.NUM_MOISTURE_SENSORS ≤ m.sum := Nat.div_le_self _ _
  have hcast := toUint_of_range ((m.sum / cfg.NUM_MOISTURE_SENSORS : Nat) : Int)
    (Int.natCast_nonneg _) (by omega)
  unfold average round
  rw [hs, Int.tdiv_eq_ediv h0 hN, hq]
  exact_mod_cast hcast

/-- C4, the code at a failing input: with the slots at 20 %, 80 % and 7 % the
stored average is 35, whereas the mean 35.67 rounded to the nearest integer
is 36. -/
theorem average_truncates :
    (updateMoistureReadings exampleConfig (rawInput [80, 20, 93]).adc
      (sensorReadingsInit exampleConfig)).1.moisture = [20, 80, 7] ∧
    (updateMoistureReadings exampleConfig (rawInput [80, 20, 93]).adc
      (sensorReadingsInit exampleConfig)).1.avgMoisture = 35 ∧
    roundedMean [20, 80, 7] = 36 := by
  decide

/-! ## Calibration bounds in rising order (C10) -/

theorem sumLoop_zeros (N n : Nat) : ∀ i, sumLoop (List.replicate N 0) n i 0 = 0 := by
  induction n with
  | zero => intro i; simp [sumLoop]
  | succ n ih =>
    intro i
    have hget : (List.replicate N 0).getD i 0 = 0 := by
      simp only [List.getD_eq_getElem?_getD, List.getElem?_replicate]
      split <;> rfl
    have hz : toInt ((0 : Int) + ((0 : Nat) : Int)) = 0 := by simp [toInt]
    rw [sumLoop, hget, hz]
    exact ih (i + 1)

theorem average_zeros (cfg : Config) :
    average cfg (List.replicate cfg.NUM_MOISTURE_SENSORS 0) = 0 := by
  simp [average, sumLoop_zeros, round, toUint]

theorem validReading_rising (cfg : Config)
    (h : cfg.MIN_MOISTURE_VALUE < cfg.MAX_MOISTURE_VALUE) (adc : Int) :
    validReading cfg adc = false := by
  cases hv : validReading cfg adc with
  | false => rfl
  | true =>
    have := (validReading_iff cfg adc).mp hv
    omega

theorem updateSensorReadings_zeros (cfg : Config)
    (h : cfg.MIN_MOISTURE_VALUE < cfg.MAX_MOISTURE_VALUE) (inp : SensorInput)
    (s : SensorReadings) (hs : s.moisture = List.replicate cfg.NUM_MOISTURE_SENSORS 0) :
    (updateSensorReadings cfg inp s).1.moisture = List.replicate cfg.NUM_MOISTURE_SENSORS 0 ∧
    (updateSensorReadings cfg inp s).1.avgMoisture = 0 := by
  have hm : (updateSensorReadings cfg inp s).1.moisture =
      List.replicate cfg.NUM_MOISTURE_SENSORS 0 := by
    rw [updateSensorReadings_moisture,
      readLoop_unchanged cfg inp.adc _ 0 _ (fun j _ _ => validReading_rising cfg h _), hs]
  exact ⟨hm, by rw [updateSensorReadings_avg, hm, average_zeros]⟩

theorem loop_zeros (cfg : Config) (h : cfg.MIN_MOISTURE_VALUE < cfg.MAX_MOISTURE_VALUE)
    (inp : Nat → SensorInput) (fuel : Nat) (s : SensorReadings)
    (hs : s.moisture = List.replicate cfg.NUM_MOISTURE_SENSORS 0) :
    (loop cfg inp fuel s).finished = true ∧ pumpCount (loop cfg inp fuel s).trace = 0 ∧
    (loop cfg inp fuel s).readings.moisture = List.replicate cfg.NUM_MOISTURE_SENSORS 0 := by
  have hz := updateSensorReadings_zeros cfg h (inp 0) s hs
  have hnot : ¬ (cycleAvg cfg inp s 0 ≠ 0 ∧ cycleAvg cfg inp s 0 ≤ cfg.LOW_MOISTURE_TRIGGER) := by
    rw [cycleAvg_zero, hz.2]
    exact fun hc => hc.1 rfl
  obtain ⟨hf, hc, hr⟩ := loop_not_triggered cfg inp fuel s hnot
  exact ⟨hf, hc, by rw [hr]; exact hz.1⟩

theorem runLoops_zeros (cfg : Config) (h : cfg.MIN_MOISTURE_VALUE < cfg.MAX_MOISTURE_VALUE)
    (cycles : List ((Nat → SensorInput) × Nat)) :
    ∀ s : SensorReadings, s.moisture = List.replicate cfg.NUM_MOISTURE_SENSORS 0 →
      pumpCount (runLoops cfg cycles s).2 = 0 := by
  induction cycles with
  | nil => intro s _; simp [runLoops, pumpCount]
  | cons c rest ih =>
    intro s hs
    obtain ⟨hf, hc, hr⟩ := loop_zeros cfg h c.1 c.2 s hs
    simp only [runLoops, hf, if_true, pumpCount_append, hc, ih _ hr]

/-- C10: when `MAX_MOISTURE_VALUE > MIN_MOISTURE_VALUE`, the test
`adc >= MAX_MOISTURE_VALUE && adc <= MIN_MOISTURE_VALUE` fails for every raw
value; starting from the zero-initialised record, after any number of calls of
`updateMoistureReadings` with any raw readings every moisture slot and
`avgMoisture` are still 0; and no sequence of control cycles started from that
record ever activates the pump. -/
theorem rising_bounds_never_update (cfg : Config)
    (h : cfg.MAX_MOISTURE_VALUE > cfg.MIN_MOISTURE_VALUE) :
    (∀ adc : Int, validReading cfg adc = false) ∧
    (∀ readings : List (Nat → Int),
      (readings.foldl (fun s adc => (updateMoistureReadings cfg adc s).1)
        (sensorReadingsInit cfg)).moisture = List.replicate cfg.NUM_MOISTURE_SENSORS 0 ∧
      (readings.foldl (fun s adc => (updateMoistureReadings cfg adc s).1)
        (sensorReadingsInit cfg)).avgMoisture = 0) ∧
    (∀ cycles : List ((Nat → SensorInput) × Nat),
      pumpCount (runLoops cfg cycles (sensorReadingsInit cfg)).2 = 0) := by
  refine ⟨validReading_rising cfg h, ?_, fun cycles => runLoops_zeros cfg h cycles _ rfl⟩
  intro readings
  have gen : ∀ s : SensorReadings,
      s.moisture = List.replicate cfg.NUM_MOISTURE_SENSORS 0 → s.avgMoisture = 0 →
      (readings.foldl (fun s adc => (updateMoistureReadings cfg adc s).1) s).moisture =
        List.replicate cfg.NUM_MOISTURE_SENSORS 0 ∧
      (readings.foldl (fun s adc => (updateMoistureReadings cfg adc s).1) s).avgMoisture = 0 := by
    induction readings with
    | nil => intro s hm ha; exact ⟨hm, ha⟩
    | cons adc rest ih =>
      intro s hm _
      have hm2 : (updateMoistureReadings cfg adc s).1.moisture =
          List.replicate cfg.NUM_MOISTURE_SENSORS 0 := by
        rw [updateMoistureReadings_moisture,
          readLoop_unchanged cfg adc _ 0 _ (fun j _ _ => validReading_rising cfg h _), hm]
      have ha2 : (updateMoistureReadings cfg adc s).1.avgMoisture = 0 := by
        have : (updateMoistureReadings cfg adc s).1.avgMoisture =
            average cfg (updateMoistureReadings cfg adc s).1.moisture := rfl
        rw [this, hm2, average_zeros]
      exact ih _ hm2 ha2
  exact gen _ rfl rfl

/-- C10, example: with calibration bounds 0 (dry) and 100 (submerged) in
rising order, raw readings inside `[0,100]` leave the zero-initialised record
at 0, and a cycle fed with them does not activate the pump. -/
theorem rising_bounds_never_update_witness :
    risingConfig.MAX_MOISTURE_VALUE > risingConfig.MIN_MOISTURE_VALUE ∧
    validReading risingConfig 50 = false ∧
    ([(rawInput [95, 95, 95]).adc, (rawInput [40, 50, 60]).adc].foldl
      (fun s adc => (updateMoistureReadings risingConfig adc s).1)
      (sensorReadingsInit risingConfig)).moisture = [0, 0, 0] ∧
    pumpCount (runLoops risingConfig [(dryInputs, 5), (recoveringInputs, 5)]
      (sensorReadingsInit risingConfig)).2 = 0 :=
  ⟨by decide,
    (rising_bounds_never_update risingConfig (by decide)).1 50,
    ((rising_bounds_never_update risingConfig (by decide)).2.1
      [(rawInput [95, 95, 95]).adc, (rawInput [40, 50, 60]).adc]).1,
    (rising_bounds_never_update risingConfig (by decide)).2.2
      [(dryInputs, 5), (recoveringInputs, 5)]⟩

/-! ## Reads of the listener task during an update (C8) -/

theorem storeTemperature_fields (t : CFloat) (s : SensorReadings) :
    (storeTemperature t s).moisture = s.moisture ∧
    (storeTemperature t s).avgMoisture = s.avgMoisture ∧
    (storeTemperature t s).humidity = s.humidity := by
  unfold storeTemperature
  by_cases ht : isnan t = true <;> simp [ht]

theorem storeHumidity_fields (h : CFloat) (s : SensorReadings) :
    (storeHumidity h s).moisture = s.moisture ∧
    (storeHumidity h s).avgMoisture = s.avgMoisture ∧
    (storeHumidity h s).temperature = s.temperature := by
  unfold storeHumidity
  by_cases hh : isnan h = true <;> simp [hh]

theorem updateSensorReadings_eq (cfg : Config) (inp : SensorInput) (s : SensorReadings) :
    (updateSensorReadings cfg inp s).1 =
      storeHumidity inp.relative_humidity
        (storeTemperature inp.temperature (updateMoistureReadings cfg inp.adc s).1) := rfl

/-- Each field of a record met during an update holds the value it had
before the update or the value it has after it. -/
theorem recordDuringUpdate_fields (cfg : Config) (inp : SensorInput) (s σ : SensorReadings)
    (hσ : σ ∈ recordDuringUpdate cfg inp s) :
    (∀ i : Nat, σ.moisture[i]? = s.moisture[i]? ∨
      σ.moisture[i]? = (updateSensorReadings cfg inp s).1.moisture[i]?) ∧
    (σ.avgMoisture = s.avgMoisture ∨
      σ.avgMoisture = (updateSensorReadings cfg inp s).1.avgMoisture) ∧
    (σ.humidity = s.humidity ∨ σ.humidity = (updateSensorReadings cfg inp s).1.humidity) ∧
    (σ.temperature = s.temperature ∨
      σ.temperature = (updateSensorReadings cfg inp s).1.temperature) := by
  have e := updateSensorReadings_eq cfg inp s
  have hT := storeTemperature_fields inp.temperature (updateMoistureReadings cfg inp.adc s).1
  have hH := storeHumidity_fields inp.relative_humidity
    (storeTemperature inp.temperature (updateMoistureReadings cfg inp.adc s).1)
  have fm : (updateSensorReadings cfg inp s).1.moisture =
      (updateMoistureReadings cfg inp.adc s).1.moisture := by rw [e, hH.1, hT.1]
  have fa : (updateSensorReadings cfg inp s).1.avgMoisture =
      (updateMoistureReadings cfg inp.adc s).1.avgMoisture := by rw [e, hH.2.1, hT.2.1]
  have ft : (updateSensorReadings cfg inp s).1.temperature =
      (storeTemperature inp.temperature (updateMoistureReadings cfg inp.adc s).1).temperature := by
    rw [e, hH.2.2]
  simp only [recordDuringUpdate, List.mem_append, List.mem_map, List.mem_range, List.mem_cons,
    List.mem_singleton, List.not_mem_nil, or_false] at hσ
  rcases hσ with ⟨k, hk, rfl⟩ | rfl | rfl | rfl
  · refine ⟨fun i => ?_, Or.inl rfl, Or.inl rfl, Or.inl rfl⟩
    rw [fm, updateMoistureReadings_moisture]
    simp only [readLoop_getElem]
    by_cases hc : 0 ≤ i ∧ i < 0 + k ∧ i < s.moisture.length ∧
        validReading cfg (inp.adc i) = true
    · right
      rw [if_pos hc, if_pos ⟨hc.1, by omega, hc.2.2.1, hc.2.2.2⟩]
    · left
      rw [if_neg hc]
  · exact ⟨fun i => Or.inr (by rw [fm]), Or.inr fa.symm, Or.inl rfl, Or.inl rfl⟩
  · exact ⟨fun i => Or.inr (by rw [fm, hT.1]), Or.inr (by rw [fa, hT.2.1]),
      Or.inl (by rw [hT.2.2]; rfl), Or.inr ft.symm⟩
  · exact ⟨fun i => Or.inr rfl, Or.inr rfl, Or.inr rfl, Or.inr rfl⟩

/-- Reading every slot of an array of the configured length gives the array
itself. -/
theorem range_map_getD (l : List Nat) :
    (List.range l.length).map (fun i => l.getD i 0) = l := by
  apply List.ext_getElem?
  intro i
  by_cases hi : i < l.length
  · rw [List.getElem?_map, List.getElem?_range hi, Option.map_some',
      List.getD_eq_getElem?_getD, List.getElem?_eq_getElem hi]
    rfl
  · rw [List.getElem?_eq_none (by simpa using hi), List.getElem?_eq_none (by simpa using hi)]

/-- A read during which the record stays at `σ` serves the fields of `σ`. -/
theorem getReadingsJSON_steady (cfg : Config) (σ : SensorReadings)
    (hlen : σ.moisture.length = cfg.NUM_MOISTURE_SENSORS) :
    getReadingsJSON cfg (fun _ => σ) σ σ σ =
      { moisture_values := σ.moisture, avg_moisture := σ.avgMoisture,
        humidity := σ.humidity, temperature := σ.temperature } := by
  have h := range_map_getD σ.moisture
  rw [hlen] at h
  simp only [getReadingsJSON, h]

/-- C8, as stated, fails: a read that takes place between
`updateMoistureReadings` and `updateTempHumidity` of the second cycle serves
the moisture values and average stored by the second cycle together with the
temperature and humidity stored by the first, a document of neither cycle. -/
theorem mixed_generation_document :
    recordAfterFirstCycle =
      { moisture := [5, 5, 5], avgMoisture := 5,
        humidity := 0x42340000, temperature := 0x41A00000 } ∧
    recordAfterSecondCycle =
      { moisture := [60, 60, 60], avgMoisture := 60,
        humidity := 0x42480000, temperature := 0x41C80000 } ∧
    recordMidSecondCycle ∈
      recordDuringUpdate exampleConfig secondCycleInput recordAfterFirstCycle ∧
    getReadingsJSON exampleConfig (fun _ => recordMidSecondCycle) recordMidSecondCycle
        recordMidSecondCycle recordMidSecondCycle =
      { moisture_values := [60, 60, 60], avg_moisture := 60,
        humidity := 0x42340000, temperature := 0x41A00000 } ∧
    (getReadingsJSON exampleConfig (fun _ => recordMidSecondCycle) recordMidSecondCycle
        recordMidSecondCycle recordMidSecondCycle).moisture_values ≠
      recordAfterFirstCycle.moisture ∧
    (getReadingsJSON exampleConfig (fun _ => recordMidSecondCycle) recordMidSecondCycle
        recordMidSecondCycle recordMidSecondCycle).temperature ≠
      recordAfterSecondCycle.temperature := by
  decide

/-- C8 (amended): the listener task reads the fields of the global record one
by one, without synchronisation, and serves for each field the value the record
holds when that field is read.  For a read that overlaps one
`updateSensorReadings()` on a record with one slot per channel: the document
has one entry per channel; each moisture entry, the average, the humidity and
the temperature served is the value of that field of the record either before
the update or after it, not necessarily all of the same generation; if every
field is read before the first store of the update the document consists of
the fields the record had before it, and if every field is read after the last
store it consists of the fields the record has after it. -/
theorem served_document_fields (cfg : Config) (inp : SensorInput) (s : SensorReadings)
    (atSlot : Nat → SensorReadings) (atAvg atHumidity atTemperature : SensorReadings)
    (hlen : s.moisture.length = cfg.NUM_MOISTURE_SENSORS)
    (hslot : ∀ i, atSlot i ∈ recordDuringUpdate cfg inp s)
    (havg : atAvg ∈ recordDuringUpdate cfg inp s)
    (hhum : atHumidity ∈ recordDuringUpdate cfg inp s)
    (htemp : atTemperature ∈ recordDuringUpdate cfg inp s) :
    (getReadingsJSON cfg atSlot atAvg atHumidity atTemperature).moisture_values.length =
      cfg.NUM_MOISTURE_SENSORS ∧
    (∀ i : Nat, i < cfg.NUM_MOISTURE_SENSORS →
      (getReadingsJSON cfg atSlot atAvg atHumidity atTemperature).moisture_values[i]? =
          s.moisture[i]? ∨
      (getReadingsJSON cfg atSlot atAvg atHumidity atTemperature).moisture_values[i]? =
          (updateSensorReadings cfg inp s).1.moisture[i]?) ∧
    ((getReadingsJSON cfg atSlot atAvg atHumidity atTemperature).avg_moisture = s.avgMoisture ∨
      (getReadingsJSON cfg atSlot atAvg atHumidity atTemperature).avg_moisture =
        (updateSensorReadings cfg inp s).1.avgMoisture) ∧
    ((getReadingsJSON cfg atSlot atAvg atHumidity atTemperature).humidity = s.humidity ∨
      (getReadingsJSON cfg atSlot atAvg atHumidity atTemperature).humidity =
        (updateSensorReadings cfg inp s).1.humidity) ∧
    ((getReadingsJSON cfg atSlot atAvg atHumidity atTemperature).temperature = s.temperature ∨
      (getReadingsJSON cfg atSlot atAvg atHumidity atTemperature).temperature =
        (updateSensorReadings cfg inp s).1.temperature) ∧
    (s ∈ recordDuringUpdate cfg inp s ∧
      getReadingsJSON cfg (fun _ => s) s s s =
        { moisture_values := s.moisture, avg_moisture := s.avgMoisture,
          humidity := s.humidity, temperature := s.temperature }) ∧
    ((updateSensorReadings cfg inp s).1 ∈ recordDuringUpdate cfg inp s ∧
      getReadingsJSON cfg (fun _ => (updateSensorReadings cfg inp s).1)
          (updateSensorReadings cfg inp s).1 (updateSensorReadings cfg inp s).1
          (updateSensorReadings cfg inp s).1 =
        { moisture_values := (updateSensorReadings cfg inp s).1.moisture,
          avg_moisture := (updateSensorReadings cfg inp s).1.avgMoisture,
          humidity := (updateSensorReadings cfg inp s).1.humidity,
          temperature := (updateSensorReadings cfg inp s).1.temperature }) := by
  have hnew : (updateSensorReadings cfg inp s).1.moisture.length = cfg.NUM_MOISTURE_SENSORS := by
    rw [updateSensorReadings_moisture, readLoop_length, hlen]
  refine ⟨?_, ?_, ?_, ?_, ?_, ⟨?_, getReadingsJSON_steady cfg s hlen⟩,
    ⟨?_, getReadingsJSON_steady cfg _ hnew⟩⟩
  · simp [getReadingsJSON]
  · intro i hi
    have hdoc : (getReadingsJSON cfg atSlot atAvg atHumidity atTemperature).moisture_values[i]? =
        some ((atSlot i).moisture.getD i 0) := by
      simp only [getReadingsJSON, List.getElem?_map, List.getElem?_range hi, Option.map_some']
    have hs : s.moisture[i]? = some (s.moisture.getD i 0) := by
      rw [List.getD_eq_getElem?_getD, List.getElem?_eq_getElem (by omega)]; rfl
    have hn : (updateSensorReadings cfg inp s).1.moisture[i]? =
        some ((updateSensorReadings cfg inp s).1.moisture.getD i 0) := by
      rw [List.getD_eq_getElem?_getD, List.getElem?_eq_getElem (by omega)]; rfl
    rw [hdoc]
    rcases (recordDuringUpdate_fields cfg inp s _ (hslot i)).1 i with h | h
    · left
      rw [List.getD_eq_getElem?_getD, h, hs]; rfl
    · right
      rw [List.getD_eq_getElem?_getD, h, hn]; rfl
  · exact (recordDuringUpdate_fields cfg inp s _ havg).2.1
  · exact (recordDuringUpdate_fields cfg inp s _ hhum).2.2.1
  · exact (recordDuringUpdate_fields cfg inp s _ htemp).2.2.2
  · simp only [recordDuringUpdate, List.mem_append, List.mem_map, List.mem_range]
    exact Or.inl ⟨0, Nat.succ_pos _, by simp [readLoop]⟩
  · simp [recordDuringUpdate]

/-- C8, example: a read that overlaps the second cycle and takes place
between `updateMoistureReadings` and `updateTempHumidity` serves three moisture
entries, the average stored by the second cycle (60) and the temperature
stored by the first (20 °C). -/
theorem served_document_fields_witness :
    recordAfterFirstCycle.moisture.length = exampleConfig.NUM_MOISTURE_SENSORS ∧
    recordMidSecondCycle ∈
      recordDuringUpdate exampleConfig secondCycleInput recordAfterFirstCycle ∧
    (getReadingsJSON exampleConfig (fun _ => recordMidSecondCycle) recordMidSecondCycle
        recordMidSecondCycle recordMidSecondCycle).moisture_values.length = 3 ∧
    ((getReadingsJSON exampleConfig (fun _ => recordMidSecondCycle) recordMidSecondCycle
        recordMidSecondCycle recordMidSecondCycle).avg_moisture = 60 ∧
      recordAfterSecondCycle.avgMoisture = 60) ∧
    ((getReadingsJSON exampleConfig (fun _ => recordMidSecondCycle) recordMidSecondCycle
        recordMidSecondCycle recordMidSecondCycle).temperature = 0x41A00000 ∧
      recordAfterFirstCycle.temperature = 0x41A00000) :=
  ⟨by decide, by decide,
    (served_document_fields exampleConfig secondCycleInput recordAfterFirstCycle
      (fun _ => recordMidSecondCycle) recordMidSecondCycle recordMidSecondCycle
      recordMidSecondCycle (by decide)
      (fun _ => (by decide : recordMidSecondCycle ∈
        recordDuringUpdate exampleConfig secondCycleInput recordAfterFirstCycle))
      (by decide) (by decide) (by decide)).1,
    by decide, by decide⟩

/-! ## The pump is always released (C3) -/

/-- C3: in the trace of any control cycle, started with the pump pin low,
(1) every write of HIGH to the pump pin is directly followed by one delay of
`PUMP_SECONDS * 1000` ms and then by the write of LOW; (2) wherever the pin is
high, the trace is inside such an activation: the last event was the write of
HIGH and the next one is the delay, or the last two were the write of HIGH and
the delay and the next one is the write of LOW; (3) in particular the pin is
low at every sensor read, sensor power switch and display update, (4) during
every wait that follows a display update (the recovery wait and the idle wait),
and (5) at the end of the trace. -/
theorem pump_always_released (cfg : Config) (inp : Nat → SensorInput) (fuel : Nat)
    (s : SensorReadings) :
    (∀ pre post,
      (loop cfg inp fuel s).trace = pre ++ Event.digitalWrite Pin.PIN_PUMP true :: post →
      ∃ rest, post = Event.delay (cfg.PUMP_SECONDS * 1000) ::
        Event.digitalWrite Pin.PIN_PUMP false :: rest) ∧
    (∀ pre e post, (loop cfg inp fuel s).trace = pre ++ e :: post →
      pumpLevel false pre = true →
      ((∃ p, pre = p ++ [Event.digitalWrite Pin.PIN_PUMP true]) ∧
        e = Event.delay (cfg.PUMP_SECONDS * 1000)) ∨
      ((∃ p, pre = p ++ [Event.digitalWrite Pin.PIN_PUMP true,
          Event.delay (cfg.PUMP_SECONDS * 1000)]) ∧
        e = Event.digitalWrite Pin.PIN_PUMP false)) ∧
    (∀ pre e post, (loop cfg inp fuel s).trace = pre ++ e :: post →
      (e = Event.getTemperature ∨ e = Event.getHumidity ∨ e = Event.display ∨
        (∃ i, e = Event.analogRead i) ∨ (∃ l, e = Event.digitalWrite Pin.PIN_MOISTURE_VCC l)) →
      pumpLevel false pre = false) ∧
    (∀ pre x post, (loop cfg inp fuel s).trace = pre ++ Event.display :: Event.delay x :: post →
      pumpLevel false (pre ++ [Event.display]) = false) ∧
    pumpLevel false (loop cfg inp fuel s).trace = false := by
  have safe := PumpSafe_loop cfg inp fuel s
  refine ⟨fun pre post heq => PumpSafe_high_followed _ _ safe pre post heq, safe.2, ?_, ?_, safe.1⟩
  · intro pre e post heq he
    cases hlev : pumpLevel false pre with
    | false => rfl
    | true =>
      rcases safe.2 pre e post heq hlev with ⟨_, h⟩ | ⟨_, h⟩ <;>
        rcases he with he | he | he | ⟨i, he⟩ | ⟨l, he⟩ <;> rw [he] at h <;> cases h
  · intro pre x post heq
    cases hlev : pumpLevel false (pre ++ [Event.display]) with
    | false => rfl
    | true =>
      have heq2 : (loop cfg inp fuel s).trace = (pre ++ [Event.display]) ++ Event.delay x :: post := by
        rw [heq]; simp
      rcases safe.2 _ _ post heq2 hlev with ⟨⟨p, hp⟩, _⟩ | ⟨⟨p, hp⟩, _⟩
      · have := congrArg List.getLast? hp
        simp at this
      · have := congrArg List.getLast? hp
        simp at this

/-- C3, example: in a cycle that irrigates twice, the first write of HIGH to
the pump pin is directly followed by the delay of 5000 ms and the write of LOW,
and the pin is low at the end. -/
theorem pump_always_released_witness :
    pumpCount (loop exampleConfig dryInputs 2 (sensorReadingsInit exampleConfig)).trace = 2 ∧
    (∃ rest, ((loop exampleConfig dryInputs 2 (sensorReadingsInit exampleConfig)).trace.drop 11) =
      Event.delay (exampleConfig.PUMP_SECONDS * 1000) ::
        Event.digitalWrite Pin.PIN_PUMP false :: rest) ∧
    pumpLevel false (loop exampleConfig dryInputs 2 (sensorReadingsInit exampleConfig)).trace =
      false :=
  ⟨by decide,
    (pump_always_released exampleConfig dryInputs 2 (sensorReadingsInit exampleConfig)).1
      ((loop exampleConfig dryInputs 2 (sensorReadingsInit exampleConfig)).trace.take 10)
      ((loop exampleConfig dryInputs 2 (sensorReadingsInit exampleConfig)).trace.drop 11)
      (by decide),
    (pump_always_released exampleConfig dryInputs 2
      (sensorReadingsInit exampleConfig)).2.2.2.2⟩

/-! ## The irrigation decision (C1, C2, C9) -/

/-- C1, as stated, fails: with trigger level 50 and target 30, a cycle that
acquires an average of 40 satisfies `0 < avgMoisture <= LOW_MOISTURE_TRIGGER`,
yet it ends without a single pump activation. -/
theorem loop_entry_counterexample :
    cycleAvg invertedConfig moistInputs (sensorReadingsInit invertedConfig) 0 = 40 ∧
    (loop invertedConfig moistInputs 1 (sensorReadingsInit invertedConfig)).finished = true ∧
    pumpCount (loop invertedConfig moistInputs 1 (sensorReadingsInit invertedConfig)).trace = 0 ∧
    ¬ (1 ≤ pumpCount (loop invertedConfig moistInputs 1 (sensorReadingsInit invertedConfig)).trace ↔
        0 < cycleAvg invertedConfig moistInputs (sensorReadingsInit invertedConfig) 0 ∧
        cycleAvg invertedConfig moistInputs (sensorReadingsInit invertedConfig) 0 ≤
          invertedConfig.LOW_MOISTURE_TRIGGER) := by
  decide

/-- C1 (amended): a control cycle activates the pump at least once if and only
if the average acquired at its start satisfies
`0 < avgMoisture <= LOW_MOISTURE_TRIGGER` and `avgMoisture < TARGET_MOISTURE`;
when `LOW_MOISTURE_TRIGGER < TARGET_MOISTURE` the last condition is implied.
Once the trigger condition holds, the loop is left right after acquisition
number `n` (the cycle ends with exactly `n` pump activations) if and only if
the average acquired there is `>= TARGET_MOISTURE`, given that it was below the
target at every earlier acquisition. -/
theorem loop_entry_exit (cfg : Config) (inp : Nat → SensorInput) (s : SensorReadings)
    (fuel : Nat) (hfuel : 1 ≤ fuel) :
    (1 ≤ pumpCount (loop cfg inp fuel s).trace ↔
      0 < cycleAvg cfg inp s 0 ∧ cycleAvg cfg inp s 0 ≤ cfg.LOW_MOISTURE_TRIGGER ∧
        cycleAvg cfg inp s 0 < cfg.TARGET_MOISTURE) ∧
    (cfg.LOW_MOISTURE_TRIGGER < cfg.TARGET_MOISTURE →
      (1 ≤ pumpCount (loop cfg inp fuel s).trace ↔
        0 < cycleAvg cfg inp s 0 ∧ cycleAvg cfg inp s 0 ≤ cfg.LOW_MOISTURE_TRIGGER)) ∧
    (∀ n, n ≤ fuel → 0 < cycleAvg cfg inp s 0 →
      cycleAvg cfg inp s 0 ≤ cfg.LOW_MOISTURE_TRIGGER →
      (∀ j, j < n → cycleAvg cfg inp s j < cfg.TARGET_MOISTURE) →
      (((loop cfg inp fuel s).finished = true ∧ pumpCount (loop cfg inp fuel s).trace = n) ↔
        cfg.TARGET_MOISTURE ≤ cycleAvg cfg inp s n)) := by
  have entry : 1 ≤ pumpCount (loop cfg inp fuel s).trace ↔
      0 < cycleAvg cfg inp s 0 ∧ cycleAvg cfg inp s 0 ≤ cfg.LOW_MOISTURE_TRIGGER ∧
        cycleAvg cfg inp s 0 < cfg.TARGET_MOISTURE := by
    by_cases trig : cycleAvg cfg inp s 0 ≠ 0 ∧ cycleAvg cfg inp s 0 ≤ cfg.LOW_MOISTURE_TRIGGER
    · rw [(loop_triggered cfg inp fuel s trig).2.1]
      by_cases ht : cycleAvg cfg inp s 0 < cfg.TARGET_MOISTURE
      · have h1 := irrigate_at_least cfg inp 1 fuel 1 (updateSensorReadings cfg (inp 0) s).1
          hfuel (fun j hj => by
            have hj0 : j = 0 := by omega
            subst hj0
            rw [acquired_cycle]; exact ht)
        constructor
        · intro _; exact ⟨Nat.pos_of_ne_zero trig.1, trig.2, ht⟩
        · intro _; exact h1
      · have hge : cfg.TARGET_MOISTURE ≤ (updateSensorReadings cfg (inp 0) s).1.avgMoisture := by
          rw [← cycleAvg_zero]; omega
        rw [irrigate_done cfg inp fuel 1 _ hge]
        constructor
        · intro h; simp [pumpCount] at h
        · intro h; exact absurd h.2.2 ht
    · rw [(loop_not_triggered cfg inp fuel s trig).2.1]
      constructor
      · intro h; omega
      · intro h; exact absurd ⟨Nat.pos_iff_ne_zero.mp h.1, h.2.1⟩ trig
  refine ⟨entry, ?_, ?_⟩
  · intro hlt
    rw [entry]
    constructor
    · intro h; exact ⟨h.1, h.2.1⟩
    · intro h; exact ⟨h.1, h.2, by omega⟩
  · intro n hn hpos hlow hbelow
    have trig : cycleAvg cfg inp s 0 ≠ 0 ∧ cycleAvg cfg inp s 0 ≤ cfg.LOW_MOISTURE_TRIGGER :=
      ⟨Nat.pos_iff_ne_zero.mp hpos, hlow⟩
    obtain ⟨hfin, hcount, _⟩ := loop_triggered cfg inp fuel s trig
    rw [hfin, hcount]
    have hbelow2 : ∀ j, j < n →
        (acquired cfg inp 1 (updateSensorReadings cfg (inp 0) s).1 j).avgMoisture <
          cfg.TARGET_MOISTURE := fun j hj => by rw [acquired_cycle]; exact hbelow j hj
    constructor
    · rintro ⟨hf, hc⟩
      by_contra hnot
      have hall : ∀ j, j < n + 1 →
          (acquired cfg inp 1 (updateSensorReadings cfg (inp 0) s).1 j).avgMoisture <
            cfg.TARGET_MOISTURE := by
        intro j hj
        by_cases hjn : j < n
        · exact hbelow2 j hjn
        · have hjn2 : j = n := by omega
          subst hjn2
          rw [acquired_cycle]; omega
      by_cases hfu : n + 1 ≤ fuel
      · have := irrigate_at_least cfg inp (n + 1) fuel 1 _ hfu hall
        omega
      · have hfn : fuel = n := by omega
        subst hfn
        have := (irrigate_running cfg inp fuel 1 (updateSensorReadings cfg (inp 0) s).1
          (fun j hj => hall j (by omega))).1
        rw [this] at hf
        exact Bool.false_ne_true hf
    · intro hge
      have := irrigate_exit cfg inp n fuel 1 (updateSensorReadings cfg (inp 0) s).1 hn hbelow2
        (by rw [acquired_cycle]; exact hge)
      exact ⟨this.1, this.2.1⟩

/-- C1, example of the specification: channels at 20 %, 80 % and 5 % with
trigger level 15 and target 50 give an average of 35 and no pump activation. -/
theorem loop_entry_exit_witness :
    (1 : Nat) ≤ 1 ∧
    (updateSensorReadings exampleConfig (mixedInputs 0)
      (sensorReadingsInit exampleConfig)).1.moisture = [20, 80, 5] ∧
    cycleAvg exampleConfig mixedInputs (sensorReadingsInit exampleConfig) 0 = 35 ∧
    ¬ (1 ≤ pumpCount (loop exampleConfig mixedInputs 1 (sensorReadingsInit exampleConfig)).trace) :=
  ⟨by decide, by decide, by decide, fun h =>
    absurd ((loop_entry_exit exampleConfig mixedInputs (sensorReadingsInit exampleConfig) 1
      (by decide)).1.mp h).2.1 (by decide)⟩

/-- C2, the code at a failing input: the cycle is triggered at 5 %, the first
re-acquisition returns an average of 0, and the pump is activated again after
it (and again after the next one); the loop is still running after three
iterations. -/
theorem zero_average_sustains_irrigation :
    cycleAvg exampleConfig dryingInputs (sensorReadingsInit exampleConfig) 0 = 5 ∧
    cycleAvg exampleConfig dryingInputs (sensorReadingsInit exampleConfig) 1 = 0 ∧
    cycleAvg exampleConfig dryingInputs (sensorReadingsInit exampleConfig) 2 = 0 ∧
    pumpCount (loop exampleConfig dryingInputs 1 (sensorReadingsInit exampleConfig)).trace = 1 ∧
    pumpCount (loop exampleConfig dryingInputs 2 (sensorReadingsInit exampleConfig)).trace = 2 ∧
    pumpCount (loop exampleConfig dryingInputs 3 (sensorReadingsInit exampleConfig)).trace = 3 ∧
    (loop exampleConfig dryingInputs 3 (sensorReadingsInit exampleConfig)).finished = false := by
  decide

/-- C9: once a cycle has triggered irrigation below the target, (1) if the
first `n` re-acquired averages are below the target, the pump is activated at
least `n + 1` times; (2) if re-acquisition number `k` is the first whose
average reaches the target, the cycle ends with exactly `k` pump activations;
(3) if every raw reading after the trigger is out of range, the moisture slots
and the average keep their values, and the loop never ends: whatever the
number of iterations allowed, all of them are run, each with one pump
activation. -/
theorem irrigation_unbounded (cfg : Config) (inp : Nat → SensorInput) (s : SensorReadings)
    (hpos : 0 < cycleAvg cfg inp s 0)
    (hlow : cycleAvg cfg inp s 0 ≤ cfg.LOW_MOISTURE_TRIGGER)
    (htarget : cycleAvg cfg inp s 0 < cfg.TARGET_MOISTURE) :
    (∀ n, (∀ j, 1 ≤ j → j ≤ n → cycleAvg cfg inp s j < cfg.TARGET_MOISTURE) →
      ∀ fuel, n + 1 ≤ fuel → n + 1 ≤ pumpCount (loop cfg inp fuel s).trace) ∧
    (∀ k, (∀ j, j < k → cycleAvg cfg inp s j < cfg.TARGET_MOISTURE) →
      cfg.TARGET_MOISTURE ≤ cycleAvg cfg inp s k →
      ∀ fuel, k ≤ fuel →
        (loop cfg inp fuel s).finished = true ∧ pumpCount (loop cfg inp fuel s).trace = k) ∧
    ((∀ j, 1 ≤ j → ∀ i, i < cfg.NUM_MOISTURE_SENSORS →
        validReading cfg ((inp j).adc i) = false) →
      (∀ j, (acquired cfg inp 0 s (j + 1)).moisture = (acquired cfg inp 0 s 1).moisture ∧
        cycleAvg cfg inp s j = cycleAvg cfg inp s 0) ∧
      ∀ fuel, (loop cfg inp fuel s).finished = false ∧
        pumpCount (loop cfg inp fuel s).trace = fuel) := by
  have trig : cycleAvg cfg inp s 0 ≠ 0 ∧ cycleAvg cfg inp s 0 ≤ cfg.LOW_MOISTURE_TRIGGER :=
    ⟨Nat.pos_iff_ne_zero.mp hpos, hlow⟩
  refine ⟨?_, ?_, ?_⟩
  · intro n hn fuel hfuel
    rw [(loop_triggered cfg inp fuel s trig).2.1]
    refine irrigate_at_least cfg inp (n + 1) fuel 1 _ hfuel (fun j hj => ?_)
    rw [acquired_cycle]
    by_cases hj0 : j = 0
    · subst hj0; exact htarget
    · exact hn j (by omega) (by omega)
  · intro k hk hge fuel hfuel
    obtain ⟨hfin, hcount, _⟩ := loop_triggered cfg inp fuel s trig
    rw [hfin, hcount]
    have := irrigate_exit cfg inp k fuel 1 (updateSensorReadings cfg (inp 0) s).1 hfuel
      (fun j hj => by rw [acquired_cycle]; exact hk j hj)
      (by rw [acquired_cycle]; exact hge)
    exact ⟨this.1, this.2.1⟩
  · intro hout
    have keep : ∀ j, (acquired cfg inp 0 s (j + 1)).moisture = (acquired cfg inp 0 s 1).moisture ∧
        cycleAvg cfg inp s j = cycleAvg cfg inp s 0 := by
      intro j
      induction j with
      | zero => exact ⟨rfl, rfl⟩
      | succ j ih =>
        have hm : (acquired cfg inp 0 s (j + 1 + 1)).moisture =
            (acquired cfg inp 0 s (j + 1)).moisture := by
          rw [acquired, updateSensorReadings_moisture]
          exact readLoop_unchanged cfg _ _ 0 _
            (fun i _ hi => hout (0 + (j + 1)) (by omega) i (by omega))
        have ha : cycleAvg cfg inp s (j + 1) = cycleAvg cfg inp s j := by
          unfold cycleAvg
          rw [acquired, updateSensorReadings_avg, ← acquired, hm]
          rw [acquired, updateSensorReadings_avg]
        exact ⟨hm.trans ih.1, ha.trans ih.2⟩
    refine ⟨keep, fun fuel => ?_⟩
    obtain ⟨hfin, hcount, _⟩ := loop_triggered cfg inp fuel s trig
    rw [hfin, hcount]
    refine irrigate_running cfg inp fuel 1 _ (fun j _ => ?_)
    rw [acquired_cycle, (keep j).2]
    exact htarget

/-- C9, example of the specification: with all channels at 5 %, trigger level
15 and target 50, irrigation is triggered; while the readings stay out of
range it keeps pumping, and with readings of 5 % three times and then 60 % it
stops after exactly three pump activations. -/
theorem irrigation_unbounded_witness :
    (0 < cycleAvg exampleConfig recoveringInputs (sensorReadingsInit exampleConfig) 0 ∧
     cycleAvg exampleConfig recoveringInputs (sensorReadingsInit exampleConfig) 0 ≤
       exampleConfig.LOW_MOISTURE_TRIGGER ∧
     cycleAvg exampleConfig recoveringInputs (sensorReadingsInit exampleConfig) 0 <
       exampleConfig.TARGET_MOISTURE) ∧
    (updateSensorReadings exampleConfig (recoveringInputs 0)
      (sensorReadingsInit exampleConfig)).1.moisture = [5, 5, 5] ∧
    cycleAvg exampleConfig recoveringInputs (sensorReadingsInit exampleConfig) 3 = 60 ∧
    ((loop exampleConfig recoveringInputs 10 (sensorReadingsInit exampleConfig)).finished = true ∧
      pumpCount
        (loop exampleConfig recoveringInputs 10 (sensorReadingsInit exampleConfig)).trace = 3) ∧
    ((loop exampleConfig stuckInputs 7 (sensorReadingsInit exampleConfig)).finished = false ∧
      pumpCount (loop exampleConfig stuckInputs 7 (sensorReadingsInit exampleConfig)).trace = 7) :=
  ⟨⟨by decide, by decide, by decide⟩, by decide, by decide,
    (irrigation_unbounded exampleConfig recoveringInputs (sensorReadingsInit exampleConfig)
      (by decide) (by decide) (by decide)).2.1 3
      (fun j hj => by
        have h : j = 0 ∨ j = 1 ∨ j = 2 := by omega
        rcases h with h | h | h <;> subst h <;> decide)
      (by decide) 10 (by decide),
    ((irrigation_unbounded exampleConfig stuckInputs (sensorReadingsInit exampleConfig)
      (by decide) (by decide) (by decide)).2.2
      (fun j hj i hi => by
        have hs : stuckInputs j = rawInput [200, 200, 200] := by
          simp only [stuckInputs]
          rw [if_neg (by omega)]
        rw [hs]
        have h : i = 0 ∨ i = 1 ∨ i = 2 := by
          have : i < 3 := hi
          omega
        rcases h with h | h | h <;> subst h <;> decide)).2 7⟩

end WaterBot
